import Mathlib

/-!
Verification of `src/performance_monitor.py` (class `XilinxPerformanceAnalyzer`).

Modelling decisions for the shallow embedding:

* Report file contents, file names and all other Python strings are `List Char`
  (abbreviated `Str`).
* Python `float` values are modelled as exact rationals `ℚ`.  Every float the
  program manipulates originates from a decimal literal in a report, so the
  rational model represents the intended value exactly; `float(...)` conversion
  failure (`ValueError`) is modelled by `Option`.
* A Python function that may raise is modelled with result type `Option _`
  (`none` = an exception propagates to the caller).
* `re.search` with the fixed patterns of the source is modelled by `search`
  over a token list (`Tok`): a literal chunk, a greedy `\s*`, or a greedy
  one-or-more character class (`[-\d.]+`, `\d+`, `[\d.]+`), possibly capturing.
  `search` tries each start position left to right and at each position matches
  the tokens greedily without backtracking.  For the patterns of this program
  greedy matching coincides with Python's backtracking engine, because each
  repeated character class is disjoint from whitespace and from the first
  character of the following literal (`|`), so no shorter repetition can ever
  enable a match that the maximal one misses.
* `\s` is modelled by its ASCII part, `\d` by `0-9` (report files are ASCII).
* Python dicts are insertion-ordered association lists; updating an existing
  key replaces the value in place (`dictInsert`).
-/

abbrev Str := List Char

/-- ASCII part of Python's `\s` character class. -/
def isSpaceChar (c : Char) : Bool :=
  c = ' ' || c = '\t' || c = '\n' || c = '\r' || c = '\x0b' || c = '\x0c'

/-- The character class `[-\d.]` used for timing slack values. -/
def isNumChar (c : Char) : Bool :=
  c = '-' || c.isDigit || c = '.'

/-- The character class `[\d.]` used for utilization percentages and power. -/
def isFloatChar (c : Char) : Bool :=
  c.isDigit || c = '.'

/-- One token of a source regex: a literal chunk, a greedy `\s*`, or a greedy
one-or-more repetition of a character class (capturing when `cap` is true). -/
inductive Tok where
  | lit (l : Str)
  | ws
  | plus (cls : Char → Bool) (cap : Bool)

/-- Match the token list at the start of `s`; `some caps` returns the list of
captured groups in order.  Trailing input may remain (as with `re.search`). -/
def matchAt : List Tok → Str → Option (List Str)
  | [], _ => some []
  | Tok.lit l :: ts, s =>
    if l.isPrefixOf s then matchAt ts (s.drop l.length) else none
  | Tok.ws :: ts, s => matchAt ts (s.dropWhile isSpaceChar)
  | Tok.plus cls cap :: ts, s =>
    let seg := s.takeWhile cls
    if seg.isEmpty then none
    else (matchAt ts (s.dropWhile cls)).map (fun caps => if cap then seg :: caps else caps)

/-- `re.search`: first start position (left to right) where the pattern
matches, returning its captures. -/
def search (p : List Tok) : Str → Option (List Str)
  | [] => matchAt p []
  | c :: cs =>
    match matchAt p (c :: cs) with
    | some caps => some caps
    | none => search p cs

/-- `match.group(n)` for 1-based group number `n`. -/
def group (caps : List Str) (n : Nat) : Str := caps.getD (n - 1) []

def digitVal (c : Char) : Nat := c.toNat - '0'.toNat

/-- Python `int(s)` on a nonempty all-digit string. -/
def natOfDigits (s : Str) : Nat := s.foldl (fun a c => 10 * a + digitVal c) 0

/-- Exact value of the decimal literal `ip.fp`. -/
def decimalVal (ip fp : Str) : ℚ :=
  (natOfDigits ip : ℚ) + (natOfDigits fp : ℚ) / (10 : ℚ) ^ fp.length

/-- Shape of a well-formed decimal literal: sign, integer digits, fraction
digits. -/
structure FloatRep where
  neg : Bool
  ip : Str
  fp : Str
deriving DecidableEq

/-- Exact rational value of a parsed decimal literal. -/
def floatRepVal (r : FloatRep) : ℚ :=
  (if r.neg then -1 else 1) * decimalVal r.ip r.fp

/-- Recognize an unsigned decimal literal drawn from the classes
`[-\d.]`/`[\d.]`: digits with at most one decimal point and at least one
digit.  (Forms such as `inf`, exponents, `+` signs or underscores cannot occur
in these classes.) -/
def pyFloatRepCore (neg : Bool) (t : Str) : Option FloatRep :=
  let ip := t.takeWhile Char.isDigit
  let r := t.dropWhile Char.isDigit
  match r with
  | [] => if ip.isEmpty then none else some ⟨neg, ip, []⟩
  | '.' :: r2 =>
    let fp := r2.takeWhile Char.isDigit
    let r3 := r2.dropWhile Char.isDigit
    if r3.isEmpty && !(ip.isEmpty && fp.isEmpty) then some ⟨neg, ip, fp⟩
    else none
  | _ => none

/-- Recognize a decimal literal, with optional leading minus sign. -/
def pyFloatRep? : Str → Option FloatRep
  | '-' :: t => pyFloatRepCore true t
  | t => pyFloatRepCore false t

/-- Python `float(s)` restricted to strings over `[-\d.]`; `none` models a
`ValueError`. -/
def pyFloat? (s : Str) : Option ℚ := (pyFloatRep? s).map floatRepVal

/-! ## Regex patterns of the source -/

/-- Shape `LABEL\s*(CLS+)` shared by the four timing extractions. -/
def labelNumPat (label : String) (cls : Char → Bool) : List Tok :=
  [.lit label.toList, .ws, .plus cls true]

def wnsPat : List Tok := labelNumPat "WNS(ns):" isNumChar
def tnsPat : List Tok := labelNumPat "TNS(ns):" isNumChar
def whsPat : List Tok := labelNumPat "WHS(ns):" isNumChar
def failingEndpointsPat : List Tok := labelNumPat "Failing Endpoints:" Char.isDigit

/-- `LABEL\s*\|\s*(\d+)\s*\|\s*\d+\s*\|\s*(\d+)\s*\|\s*([\d.]+)` -/
def utilRowPat (label : String) : List Tok :=
  [.lit label.toList, .ws, .lit ['|'], .ws, .plus Char.isDigit true,
   .ws, .lit ['|'], .ws, .plus Char.isDigit false,
   .ws, .lit ['|'], .ws, .plus Char.isDigit true,
   .ws, .lit ['|'], .ws, .plus isFloatChar true]

/-- `LABEL\s*\|\s*([\d.]+)` -/
def powerRowPat (label : String) : List Tok :=
  [.lit label.toList, .ws, .lit ['|'], .ws, .plus isFloatChar true]

/-! ## Parsed records -/

structure TimingData where
  wns : Option ℚ
  tns : Option ℚ
  whs : Option ℚ
  ths : Option ℚ
  failing_endpoints : Nat
deriving DecidableEq

structure ResourceUtil where
  used : Nat
  available : Nat
  utilization : ℚ
deriving DecidableEq

structure UtilizationData where
  lut : ResourceUtil
  ff : ResourceUtil
  bram : ResourceUtil
  dsp : ResourceUtil
deriving DecidableEq

structure PowerData where
  total_power : ℚ
  dynamic_power : ℚ
  static_power : ℚ
  confidence : Str
deriving DecidableEq

def defaultTiming : TimingData :=
  { wns := none, tns := none, whs := none, ths := none, failing_endpoints := 0 }

def defaultResource : ResourceUtil := { used := 0, available := 0, utilization := 0 }

def defaultUtilization : UtilizationData :=
  { lut := defaultResource, ff := defaultResource,
    bram := defaultResource, dsp := defaultResource }

def defaultPower : PowerData :=
  { total_power := 0, dynamic_power := 0, static_power := 0,
    confidence := "Low".toList }

/-! ## `parse_timing_report` -/

/-- One slack extraction step: keep the default `none` when the pattern is
absent, convert with `float` (which may raise) when it matches. -/
def timingField (pat : List Tok) (content : Str) : Option (Option ℚ) :=
  match search pat content with
  | none => some none
  | some m => (pyFloat? (group m 1)).map some

def parse_timing_report (content : Str) : Option TimingData := do
  let wns ← timingField wnsPat content
  let tns ← timingField tnsPat content
  let whs ← timingField whsPat content
  let failing_endpoints :=
    match search failingEndpointsPat content with
    | none => 0
    | some m => natOfDigits (group m 1)
  some { wns := wns, tns := tns, whs := whs, ths := none,
         failing_endpoints := failing_endpoints }

/-! ## `parse_utilization_report` -/

/-- One resource row: `int` on groups 1 and 2 never raises; `float` on
group 3 may raise; an absent row keeps the zero defaults. -/
def utilRow (label : String) (content : Str) : Option ResourceUtil :=
  match search (utilRowPat label) content with
  | none => some defaultResource
  | some m =>
    (pyFloat? (group m 3)).map (fun q =>
      { used := natOfDigits (group m 1), available := natOfDigits (group m 2),
        utilization := q })

def parse_utilization_report (content : Str) : Option UtilizationData := do
  let lut ← utilRow "CLB LUTs" content
  let ff ← utilRow "CLB Registers" content
  let bram ← utilRow "Block RAM Tile" content
  let dsp ← utilRow "DSPs" content
  some { lut := lut, ff := ff, bram := bram, dsp := dsp }

/-! ## `parse_power_report` -/

def powerField (label : String) (content : Str) : Option ℚ :=
  match search (powerRowPat label) content with
  | none => some 0
  | some m => pyFloat? (group m 1)

def parse_power_report (content : Str) : Option PowerData := do
  let total ← powerField "Total On-Chip Power (W)" content
  let dynamic ← powerField "Dynamic (W)" content
  let static ← powerField "Device Static (W)" content
  some { total_power := total, dynamic_power := dynamic, static_power := static,
         confidence := "Low".toList }

/-! ## Matching infrastructure

`headNotB p s` states that `s` does not start with a character satisfying
`p` — the condition under which a greedy `p`-run stops exactly at the chunk
boundary. -/

def headNotB (p : Char → Bool) : Str → Bool
  | [] => true
  | c :: _ => !p c

theorem space_not_num : ∀ c : Char, isSpaceChar c = true → isNumChar c = false := by
  intro c h
  simp only [isSpaceChar, Bool.or_eq_true, decide_eq_true_eq] at h
  rcases h with ((((h | h) | h) | h) | h) | h <;> subst h <;> decide

theorem space_not_digit : ∀ c : Char, isSpaceChar c = true → c.isDigit = false := by
  intro c h
  simp only [isSpaceChar, Bool.or_eq_true, decide_eq_true_eq] at h
  rcases h with ((((h | h) | h) | h) | h) | h <;> subst h <;> decide

theorem space_not_float : ∀ c : Char, isSpaceChar c = true → isFloatChar c = false := by
  intro c h
  simp only [isSpaceChar, Bool.or_eq_true, decide_eq_true_eq] at h
  rcases h with ((((h | h) | h) | h) | h) | h <;> subst h <;> decide

theorem headNotB_of_disj {p q : Char → Bool} {l : Str}
    (hdisj : ∀ c, p c = true → q c = false) (hall : l.all p = true) (hne : l ≠ []) :
    headNotB q l = true := by
  cases l with
  | nil => exact absurd rfl hne
  | cons c cs =>
    simp only [List.all_cons, Bool.and_eq_true] at hall
    simp [headNotB, hdisj c hall.1]

theorem headNotB_append_left {p : Char → Bool} {l₁ l₂ : Str}
    (hne : l₁ ≠ []) (h : headNotB p l₁ = true) : headNotB p (l₁ ++ l₂) = true := by
  cases l₁ with
  | nil => exact absurd rfl hne
  | cons c cs => simpa [headNotB] using h

theorem dropWhile_all_append {p : Char → Bool} {l₁ l₂ : Str}
    (h1 : l₁.all p = true) (h2 : headNotB p l₂ = true) :
    (l₁ ++ l₂).dropWhile p = l₂ := by
  induction l₁ with
  | nil =>
    cases l₂ with
    | nil => rfl
    | cons c cs =>
      simp only [headNotB, Bool.not_eq_true'] at h2
      simp [List.dropWhile_cons, h2]
  | cons c cs ih =>
    simp only [List.all_cons, Bool.and_eq_true] at h1
    simp [List.dropWhile_cons, h1.1, ih h1.2]

theorem takeWhile_all_append {p : Char → Bool} {l₁ l₂ : Str}
    (h1 : l₁.all p = true) (h2 : headNotB p l₂ = true) :
    (l₁ ++ l₂).takeWhile p = l₁ := by
  induction l₁ with
  | nil =>
    cases l₂ with
    | nil => rfl
    | cons c cs =>
      simp only [headNotB, Bool.not_eq_true'] at h2
      simp [List.takeWhile_cons, h2]
  | cons c cs ih =>
    simp only [List.all_cons, Bool.and_eq_true] at h1
    simp [List.takeWhile_cons, h1.1, ih h1.2]

theorem matchAt_lit (l : Str) (ts : List Tok) (s : Str) :
    matchAt (.lit l :: ts) (l ++ s) = matchAt ts s := by
  have hp : l.isPrefixOf (l ++ s) = true := by
    simp [List.isPrefixOf_iff_prefix, List.prefix_append]
  simp [matchAt, hp, List.drop_left]

theorem matchAt_ws {w : Str} (ts : List Tok) (s : Str)
    (hw : w.all isSpaceChar = true) (hs : headNotB isSpaceChar s = true) :
    matchAt (.ws :: ts) (w ++ s) = matchAt ts s := by
  simp [matchAt, dropWhile_all_append hw hs]

theorem matchAt_plus {cls : Char → Bool} {cap : Bool} {seg : Str} (ts : List Tok) (s : Str)
    (h0 : seg ≠ []) (h1 : seg.all cls = true) (h2 : headNotB cls s = true) :
    matchAt (.plus cls cap :: ts) (seg ++ s) =
      (matchAt ts s).map (fun caps => if cap then seg :: caps else caps) := by
  simp only [matchAt, takeWhile_all_append h1 h2, dropWhile_all_append h1 h2]
  simp [List.isEmpty_iff, h0]

/-- `re.search` returns the captures of the first position where the pattern
matches, scanning start positions left to right. -/
theorem search_eq_of_first {p : List Tok} {content : Str} {i : Nat} {caps : List Str}
    (hm : matchAt p (content.drop i) = some caps)
    (hnone : ∀ j < i, matchAt p (content.drop j) = none) :
    search p content = some caps := by
  induction content generalizing i with
  | nil => simpa [search, List.drop_nil] using hm
  | cons c cs ih =>
    cases i with
    | zero =>
      simp only [List.drop_zero] at hm
      simp [search, hm]
    | succ i' =>
      have h0 := hnone 0 (Nat.succ_pos i')
      simp only [List.drop_zero] at h0
      simp only [search, h0]
      exact ih (by simpa using hm) (fun j hj => by
        simpa using hnone (j + 1) (Nat.succ_lt_succ hj))

theorem disj_symm {p q : Char → Bool} (h : ∀ c, p c = true → q c = false) :
    ∀ c, q c = true → p c = false := by
  intro c hq
  cases hp : p c with
  | false => rfl
  | true => rw [h c hp] at hq; cases hq

theorem headNotB_space_pipe {cls : Char → Bool}
    (hdisj : ∀ c, isSpaceChar c = true → cls c = false) (hpipe : cls '|' = false)
    {w : Str} (s : Str) (hw : w.all isSpaceChar = true) :
    headNotB cls (w ++ (['|'] ++ s)) = true := by
  cases w with
  | nil => simp [headNotB, hpipe]
  | cons c cs =>
    simp only [List.all_cons, Bool.and_eq_true] at hw
    simp [headNotB, hdisj c hw.1]

/-- A chunk of characters of the repeated class, followed by material that
starts outside the class, is not whitespace-initial either (the classes are
disjoint from `\s`). -/
theorem headNotB_space_of_chunk {cls : Char → Bool}
    (hdisj : ∀ c, isSpaceChar c = true → cls c = false)
    {num rest : Str} (hne : num ≠ []) (hnum : num.all cls = true) :
    headNotB isSpaceChar (num ++ rest) = true :=
  headNotB_append_left hne (headNotB_of_disj (disj_symm hdisj) hnum hne)

/-- Matching `LABEL\s*(CLS+)` on a decomposed input: the capture is exactly
the maximal class chunk after the label. -/
theorem matchAt_labelNumPat {cls : Char → Bool} (label : String)
    (hdisj : ∀ c, isSpaceChar c = true → cls c = false)
    {w num rest : Str}
    (hw : w.all isSpaceChar = true) (hne : num ≠ []) (hnum : num.all cls = true)
    (hrest : headNotB cls rest = true) :
    matchAt (labelNumPat label cls) (label.toList ++ w ++ num ++ rest) = some [num] := by
  simp only [List.append_assoc]
  rw [labelNumPat, matchAt_lit, matchAt_ws _ _ hw (headNotB_space_of_chunk hdisj hne hnum),
    matchAt_plus _ _ hne hnum hrest]
  rfl

/-- Matching `LABEL\s*\|\s*([\d.]+)` on a decomposed input. -/
theorem matchAt_powerRowPat (label : String)
    {w1 w2 num rest : Str}
    (hw1 : w1.all isSpaceChar = true) (hw2 : w2.all isSpaceChar = true)
    (hne : num ≠ []) (hnum : num.all isFloatChar = true)
    (hrest : headNotB isFloatChar rest = true) :
    matchAt (powerRowPat label) (label.toList ++ w1 ++ ['|'] ++ w2 ++ num ++ rest) =
      some [num] := by
  simp only [List.append_assoc]
  rw [powerRowPat, matchAt_lit,
    matchAt_ws _ (['|'] ++ (w2 ++ (num ++ rest))) hw1 (by rfl), matchAt_lit,
    matchAt_ws _ _ hw2 (headNotB_space_of_chunk space_not_float hne hnum),
    matchAt_plus _ _ hne hnum hrest]
  rfl

/-- Greedy `\s*` followed by the literal `|`: both consumed. -/
theorem matchAt_ws_pipe (ts : List Tok) {w : Str} (s : Str)
    (hw : w.all isSpaceChar = true) :
    matchAt (.ws :: .lit ['|'] :: ts) (w ++ (['|'] ++ s)) = matchAt ts s := by
  rw [matchAt_ws _ (['|'] ++ s) hw (by rfl), matchAt_lit]

/-- Matching the utilization table-row pattern on a decomposed input. -/
theorem matchAt_utilRowPat (label : String)
    {w1 w2 w3 w4 w5 w6 w7 w8 used mid avail pct rest : Str}
    (hw1 : w1.all isSpaceChar = true) (hw2 : w2.all isSpaceChar = true)
    (hw3 : w3.all isSpaceChar = true) (hw4 : w4.all isSpaceChar = true)
    (hw5 : w5.all isSpaceChar = true) (hw6 : w6.all isSpaceChar = true)
    (hw7 : w7.all isSpaceChar = true) (hw8 : w8.all isSpaceChar = true)
    (hu : used ≠ []) (hua : used.all Char.isDigit = true)
    (hm : mid ≠ []) (hma : mid.all Char.isDigit = true)
    (hv : avail ≠ []) (hva : avail.all Char.isDigit = true)
    (hp : pct ≠ []) (hpa : pct.all isFloatChar = true)
    (hrest : headNotB isFloatChar rest = true) :
    matchAt (utilRowPat label)
      (label.toList ++ w1 ++ ['|'] ++ w2 ++ used ++ w3 ++ ['|'] ++ w4 ++ mid ++
        w5 ++ ['|'] ++ w6 ++ avail ++ w7 ++ ['|'] ++ w8 ++ pct ++ rest) =
      some [used, avail, pct] := by
  simp only [List.append_assoc]
  rw [utilRowPat, matchAt_lit, matchAt_ws_pipe _ _ hw1,
    matchAt_ws _ _ hw2 (headNotB_space_of_chunk space_not_digit hu hua),
    matchAt_plus _ _ hu hua (headNotB_space_pipe space_not_digit (by decide) _ hw3),
    matchAt_ws_pipe _ _ hw3,
    matchAt_ws _ _ hw4 (headNotB_space_of_chunk space_not_digit hm hma),
    matchAt_plus _ _ hm hma (headNotB_space_pipe space_not_digit (by decide) _ hw5),
    matchAt_ws_pipe _ _ hw5,
    matchAt_ws _ _ hw6 (headNotB_space_of_chunk space_not_digit hv hva),
    matchAt_plus _ _ hv hva (headNotB_space_pipe space_not_digit (by decide) _ hw7),
    matchAt_ws_pipe _ _ hw7,
    matchAt_ws _ _ hw8 (headNotB_space_of_chunk space_not_float hp hpa),
    matchAt_plus _ _ hp hpa hrest]
  rfl

theorem group_one (a : Str) : group [a] 1 = a := rfl

theorem group3_one (a b c : Str) : group [a, b, c] 1 = a := rfl

theorem group3_two (a b c : Str) : group [a, b, c] 2 = b := rfl

theorem group3_three (a b c : Str) : group [a, b, c] 3 = c := rfl

/-- `re.search` on a string decomposed as `pre ++ LABEL ++ ws ++ num ++ rest`,
when no match starts inside `pre`, captures exactly `num`. -/
theorem search_labelNumPat {cls : Char → Bool} (label : String)
    (hdisj : ∀ c, isSpaceChar c = true → cls c = false)
    {pre w num rest : Str}
    (hw : w.all isSpaceChar = true) (hne : num ≠ []) (hnum : num.all cls = true)
    (hrest : headNotB cls rest = true)
    (hfirst : ∀ j < pre.length,
      matchAt (labelNumPat label cls)
        ((pre ++ label.toList ++ w ++ num ++ rest).drop j) = none) :
    search (labelNumPat label cls) (pre ++ label.toList ++ w ++ num ++ rest) =
      some [num] := by
  apply search_eq_of_first (i := pre.length) _ hfirst
  have hd : (pre ++ label.toList ++ w ++ num ++ rest).drop pre.length =
      label.toList ++ w ++ num ++ rest := by
    simp only [List.append_assoc, List.drop_left]
  rw [hd, matchAt_labelNumPat label hdisj hw hne hnum hrest]

/-- `re.search` for a power table row on a decomposed string. -/
theorem search_powerRowPat (label : String)
    {pre w1 w2 num rest : Str}
    (hw1 : w1.all isSpaceChar = true) (hw2 : w2.all isSpaceChar = true)
    (hne : num ≠ []) (hnum : num.all isFloatChar = true)
    (hrest : headNotB isFloatChar rest = true)
    (hfirst : ∀ j < pre.length,
      matchAt (powerRowPat label)
        ((pre ++ label.toList ++ w1 ++ ['|'] ++ w2 ++ num ++ rest).drop j) = none) :
    search (powerRowPat label) (pre ++ label.toList ++ w1 ++ ['|'] ++ w2 ++ num ++ rest) =
      some [num] := by
  apply search_eq_of_first (i := pre.length) _ hfirst
  have hd : (pre ++ label.toList ++ w1 ++ ['|'] ++ w2 ++ num ++ rest).drop pre.length =
      label.toList ++ (w1 ++ (['|'] ++ (w2 ++ (num ++ rest)))) := by
    simp only [List.append_assoc, List.drop_left]
  rw [hd]
  have := matchAt_powerRowPat label hw1 hw2 hne hnum hrest
  simpa only [List.append_assoc] using this

/-- `re.search` for a utilization table row on a decomposed string. -/
theorem search_utilRowPat (label : String)
    {pre w1 w2 w3 w4 w5 w6 w7 w8 used mid avail pct rest : Str}
    (hw1 : w1.all isSpaceChar = true) (hw2 : w2.all isSpaceChar = true)
    (hw3 : w3.all isSpaceChar = true) (hw4 : w4.all isSpaceChar = true)
    (hw5 : w5.all isSpaceChar = true) (hw6 : w6.all isSpaceChar = true)
    (hw7 : w7.all isSpaceChar = true) (hw8 : w8.all isSpaceChar = true)
    (hu : used ≠ []) (hua : used.all Char.isDigit = true)
    (hm : mid ≠ []) (hma : mid.all Char.isDigit = true)
    (hv : avail ≠ []) (hva : avail.all Char.isDigit = true)
    (hp : pct ≠ []) (hpa : pct.all isFloatChar = true)
    (hrest : headNotB isFloatChar rest = true)
    (hfirst : ∀ j < pre.length,
      matchAt (utilRowPat label)
        ((pre ++ label.toList ++ w1 ++ ['|'] ++ w2 ++ used ++ w3 ++ ['|'] ++ w4 ++ mid ++
          w5 ++ ['|'] ++ w6 ++ avail ++ w7 ++ ['|'] ++ w8 ++ pct ++ rest).drop j) = none) :
    search (utilRowPat label)
      (pre ++ label.toList ++ w1 ++ ['|'] ++ w2 ++ used ++ w3 ++ ['|'] ++ w4 ++ mid ++
        w5 ++ ['|'] ++ w6 ++ avail ++ w7 ++ ['|'] ++ w8 ++ pct ++ rest) =
      some [used, avail, pct] := by
  apply search_eq_of_first (i := pre.length) _ hfirst
  have hd : (pre ++ label.toList ++ w1 ++ ['|'] ++ w2 ++ used ++ w3 ++ ['|'] ++ w4 ++ mid ++
      w5 ++ ['|'] ++ w6 ++ avail ++ w7 ++ ['|'] ++ w8 ++ pct ++ rest).drop pre.length =
      label.toList ++ (w1 ++ (['|'] ++ (w2 ++ (used ++ (w3 ++ (['|'] ++ (w4 ++ (mid ++
      (w5 ++ (['|'] ++ (w6 ++ (avail ++ (w7 ++ (['|'] ++ (w8 ++ (pct ++ rest)))))))))))))))) := by
    simp only [List.append_assoc, List.drop_left]
  rw [hd]
  have := matchAt_utilRowPat label hw1 hw2 hw3 hw4 hw5 hw6 hw7 hw8 hu hua hm hma hv hva
    hp hpa hrest
  simpa only [List.append_assoc] using this

/-! ## Projections of the parsers -/

/-- When `parse_timing_report` returns, each stored field is exactly the
result of its extraction step. -/
theorem parse_timing_proj {content : Str} {d : TimingData}
    (h : parse_timing_report content = some d) :
    timingField wnsPat content = some d.wns ∧ timingField tnsPat content = some d.tns ∧
    timingField whsPat content = some d.whs ∧ d.ths = none ∧
    d.failing_endpoints = (match search failingEndpointsPat content with
      | none => 0
      | some m => natOfDigits (group m 1)) := by
  unfold parse_timing_report at h
  cases h1 : timingField wnsPat content with
  | none => rw [h1] at h; simp at h
  | some a =>
    rw [h1] at h
    simp only [Option.bind_eq_bind, Option.some_bind] at h
    cases h2 : timingField tnsPat content with
    | none => rw [h2] at h; simp at h
    | some b =>
      rw [h2] at h
      simp only [Option.bind_eq_bind, Option.some_bind] at h
      cases h3 : timingField whsPat content with
      | none => rw [h3] at h; simp at h
      | some c =>
        rw [h3] at h
        simp only [Option.bind_eq_bind, Option.some_bind, Option.some.injEq] at h
        subst h
        exact ⟨rfl, rfl, rfl, rfl, rfl⟩

/-- If any slack extraction raises, `parse_timing_report` raises. -/
theorem parse_timing_raises {content : Str}
    (h : timingField wnsPat content = none ∨ timingField tnsPat content = none ∨
      timingField whsPat content = none) :
    parse_timing_report content = none := by
  unfold parse_timing_report
  rcases h with h | h | h
  · rw [h]; rfl
  · cases h1 : timingField wnsPat content with
    | none => rfl
    | some a => simp only [Option.bind_eq_bind, Option.some_bind, h]; rfl
  · cases h1 : timingField wnsPat content with
    | none => rfl
    | some a =>
      simp only [Option.bind_eq_bind, Option.some_bind]
      cases h2 : timingField tnsPat content with
      | none => rfl
      | some b => simp only [Option.some_bind, h]; rfl

/-- When `parse_utilization_report` returns, each resource entry is exactly
the result of its row extraction. -/
theorem parse_util_proj {content : Str} {d : UtilizationData}
    (h : parse_utilization_report content = some d) :
    utilRow "CLB LUTs" content = some d.lut ∧
    utilRow "CLB Registers" content = some d.ff ∧
    utilRow "Block RAM Tile" content = some d.bram ∧
    utilRow "DSPs" content = some d.dsp := by
  unfold parse_utilization_report at h
  cases h1 : utilRow "CLB LUTs" content with
  | none => rw [h1] at h; simp at h
  | some a =>
    rw [h1] at h
    simp only [Option.bind_eq_bind, Option.some_bind] at h
    cases h2 : utilRow "CLB Registers" content with
    | none => rw [h2] at h; simp at h
    | some b =>
      rw [h2] at h
      simp only [Option.bind_eq_bind, Option.some_bind] at h
      cases h3 : utilRow "Block RAM Tile" content with
      | none => rw [h3] at h; simp at h
      | some c =>
        rw [h3] at h
        simp only [Option.bind_eq_bind, Option.some_bind] at h
        cases h4 : utilRow "DSPs" content with
        | none => rw [h4] at h; simp at h
        | some e =>
          rw [h4] at h
          simp only [Option.bind_eq_bind, Option.some_bind, Option.some.injEq] at h
          subst h
          exact ⟨rfl, rfl, rfl, rfl⟩

/-- If any utilization row extraction raises, the parser raises. -/
theorem parse_util_raises {content : Str}
    (h : utilRow "CLB LUTs" content = none ∨ utilRow "CLB Registers" content = none ∨
      utilRow "Block RAM Tile" content = none ∨ utilRow "DSPs" content = none) :
    parse_utilization_report content = none := by
  unfold parse_utilization_report
  rcases h with h | h | h | h
  · rw [h]; rfl
  all_goals cases h1 : utilRow "CLB LUTs" content with
  | none => rfl
  | some a => ?_
  all_goals simp only [Option.bind_eq_bind, Option.some_bind]
  · rw [h]; rfl
  all_goals cases h2 : utilRow "CLB Registers" content with
  | none => rfl
  | some b => ?_
  all_goals simp only [Option.some_bind]
  · rw [h]; rfl
  cases h3 : utilRow "Block RAM Tile" content with
  | none => rfl
  | some c => simp only [Option.some_bind, h]; rfl

/-- When `parse_power_report` returns, each power quantity is exactly the
result of its extraction. -/
theorem parse_power_proj {content : Str} {d : PowerData}
    (h : parse_power_report content = some d) :
    powerField "Total On-Chip Power (W)" content = some d.total_power ∧
    powerField "Dynamic (W)" content = some d.dynamic_power ∧
    powerField "Device Static (W)" content = some d.static_power ∧
    d.confidence = "Low".toList := by
  unfold parse_power_report at h
  cases h1 : powerField "Total On-Chip Power (W)" content with
  | none => rw [h1] at h; simp at h
  | some a =>
    rw [h1] at h
    simp only [Option.bind_eq_bind, Option.some_bind] at h
    cases h2 : powerField "Dynamic (W)" content with
    | none => rw [h2] at h; simp at h
    | some b =>
      rw [h2] at h
      simp only [Option.bind_eq_bind, Option.some_bind] at h
      cases h3 : powerField "Device Static (W)" content with
      | none => rw [h3] at h; simp at h
      | some c =>
        rw [h3] at h
        simp only [Option.bind_eq_bind, Option.some_bind, Option.some.injEq] at h
        subst h
        exact ⟨rfl, rfl, rfl, rfl⟩

/-- If any power extraction raises, the parser raises. -/
theorem parse_power_raises {content : Str}
    (h : powerField "Total On-Chip Power (W)" content = none ∨
      powerField "Dynamic (W)" content = none ∨
      powerField "Device Static (W)" content = none) :
    parse_power_report content = none := by
  unfold parse_power_report
  rcases h with h | h | h
  · rw [h]; rfl
  · cases h1 : powerField "Total On-Chip Power (W)" content with
    | none => rfl
    | some a => simp only [Option.bind_eq_bind, Option.some_bind, h]; rfl
  · cases h1 : powerField "Total On-Chip Power (W)" content with
    | none => rfl
    | some a =>
      simp only [Option.bind_eq_bind, Option.some_bind]
      cases h2 : powerField "Dynamic (W)" content with
      | none => rfl
      | some b => simp only [Option.some_bind, h]; rfl

/-- A slack/endpoint extraction on a decomposed input yields the converted
literal. -/
theorem timingField_extract {cls : Char → Bool} (label : String)
    (hdisj : ∀ c, isSpaceChar c = true → cls c = false)
    {pre w num rest : Str} {q : ℚ}
    (hw : w.all isSpaceChar = true) (hne : num ≠ []) (hnum : num.all cls = true)
    (hrest : headNotB cls rest = true)
    (hfirst : ∀ j < pre.length,
      matchAt (labelNumPat label cls)
        ((pre ++ label.toList ++ w ++ num ++ rest).drop j) = none)
    (hq : pyFloat? num = some q) :
    timingField (labelNumPat label cls) (pre ++ label.toList ++ w ++ num ++ rest) =
      some (some q) := by
  unfold timingField
  rw [search_labelNumPat label hdisj hw hne hnum hrest hfirst]
  simp only [group_one, hq, Option.map_some']

/-- A power-row extraction on a decomposed input yields the converted
literal. -/
theorem powerField_extract (label : String)
    {pre w1 w2 num rest : Str} {q : ℚ}
    (hw1 : w1.all isSpaceChar = true) (hw2 : w2.all isSpaceChar = true)
    (hne : num ≠ []) (hnum : num.all isFloatChar = true)
    (hrest : headNotB isFloatChar rest = true)
    (hfirst : ∀ j < pre.length,
      matchAt (powerRowPat label)
        ((pre ++ label.toList ++ w1 ++ ['|'] ++ w2 ++ num ++ rest).drop j) = none)
    (hq : pyFloat? num = some q) :
    powerField label (pre ++ label.toList ++ w1 ++ ['|'] ++ w2 ++ num ++ rest) =
      some q := by
  unfold powerField
  rw [search_powerRowPat label hw1 hw2 hne hnum hrest hfirst]
  simp only [group_one, hq]

/-- A utilization-row extraction on a decomposed input yields the two
integer columns and the converted percentage. -/
theorem utilRow_extract (label : String)
    {pre w1 w2 w3 w4 w5 w6 w7 w8 used mid avail pct rest : Str} {q : ℚ}
    (hw1 : w1.all isSpaceChar = true) (hw2 : w2.all isSpaceChar = true)
    (hw3 : w3.all isSpaceChar = true) (hw4 : w4.all isSpaceChar = true)
    (hw5 : w5.all isSpaceChar = true) (hw6 : w6.all isSpaceChar = true)
    (hw7 : w7.all isSpaceChar = true) (hw8 : w8.all isSpaceChar = true)
    (hu : used ≠ []) (hua : used.all Char.isDigit = true)
    (hm : mid ≠ []) (hma : mid.all Char.isDigit = true)
    (hv : avail ≠ []) (hva : avail.all Char.isDigit = true)
    (hp : pct ≠ []) (hpa : pct.all isFloatChar = true)
    (hrest : headNotB isFloatChar rest = true)
    (hfirst : ∀ j < pre.length,
      matchAt (utilRowPat label)
        ((pre ++ label.toList ++ w1 ++ ['|'] ++ w2 ++ used ++ w3 ++ ['|'] ++ w4 ++ mid ++
          w5 ++ ['|'] ++ w6 ++ avail ++ w7 ++ ['|'] ++ w8 ++ pct ++ rest).drop j) = none)
    (hq : pyFloat? pct = some q) :
    utilRow label
      (pre ++ label.toList ++ w1 ++ ['|'] ++ w2 ++ used ++ w3 ++ ['|'] ++ w4 ++ mid ++
        w5 ++ ['|'] ++ w6 ++ avail ++ w7 ++ ['|'] ++ w8 ++ pct ++ rest) =
      some { used := natOfDigits used, available := natOfDigits avail, utilization := q } := by
  unfold utilRow
  rw [search_utilRowPat label hw1 hw2 hw3 hw4 hw5 hw6 hw7 hw8 hu hua hm hma hv hva hp hpa
    hrest hfirst]
  simp only [group3_one, group3_two, group3_three, hq, Option.map_some']

/-! ## Claim C1 -/

/-- The WNS field of a successful timing parse equals the converted first
matched literal, on a decomposed input. -/
theorem wns_field_of_decomposition
    {content pre w num rest : Str} {q : ℚ} {d : TimingData}
    (hc : content = pre ++ "WNS(ns):".toList ++ w ++ num ++ rest)
    (hw : w.all isSpaceChar = true) (hne : num ≠ []) (hnum : num.all isNumChar = true)
    (hrest : headNotB isNumChar rest = true)
    (hfirst : ∀ j < pre.length, matchAt wnsPat (content.drop j) = none)
    (hq : pyFloat? num = some q)
    (hparse : parse_timing_report content = some d) : d.wns = some q := by
  subst hc
  unfold wnsPat at hfirst
  have hx := timingField_extract "WNS(ns):" space_not_num hw hne hnum hrest hfirst hq
  have hp := (parse_timing_proj hparse).1
  unfold wnsPat at hp
  rw [hx] at hp
  exact (Option.some.inj hp).symm

set_option maxHeartbeats 4000000 in
/-- C1: For every report text that contains a recognized label followed by a
well-formed numeric value, the corresponding parser (`parse_timing_report`,
`parse_utilization_report`, `parse_power_report`) returns that field equal to
the literal number following the label, preserving its sign and decimal
digits, taking the first match when the label occurs more than once (the
"no match before `pre.length`" hypothesis states that the decomposed
occurrence is the first matching one). -/
theorem C1_parsers_extract_labeled_values :
    (∀ (content pre w num rest : Str) (q : ℚ) (d : TimingData),
      content = pre ++ "WNS(ns):".toList ++ w ++ num ++ rest →
      w.all isSpaceChar = true → num ≠ [] → num.all isNumChar = true →
      headNotB isNumChar rest = true →
      (∀ j < pre.length, matchAt wnsPat (content.drop j) = none) →
      pyFloat? num = some q →
      parse_timing_report content = some d → d.wns = some q) ∧
    (∀ (content pre w num rest : Str) (q : ℚ) (d : TimingData),
      content = pre ++ "TNS(ns):".toList ++ w ++ num ++ rest →
      w.all isSpaceChar = true → num ≠ [] → num.all isNumChar = true →
      headNotB isNumChar rest = true →
      (∀ j < pre.length, matchAt tnsPat (content.drop j) = none) →
      pyFloat? num = some q →
      parse_timing_report content = some d → d.tns = some q) ∧
    (∀ (content pre w num rest : Str) (q : ℚ) (d : TimingData),
      content = pre ++ "WHS(ns):".toList ++ w ++ num ++ rest →
      w.all isSpaceChar = true → num ≠ [] → num.all isNumChar = true →
      headNotB isNumChar rest = true →
      (∀ j < pre.length, matchAt whsPat (content.drop j) = none) →
      pyFloat? num = some q →
      parse_timing_report content = some d → d.whs = some q) ∧
    (∀ (content pre w num rest : Str) (d : TimingData),
      content = pre ++ "Failing Endpoints:".toList ++ w ++ num ++ rest →
      w.all isSpaceChar = true → num ≠ [] → num.all Char.isDigit = true →
      headNotB Char.isDigit rest = true →
      (∀ j < pre.length, matchAt failingEndpointsPat (content.drop j) = none) →
      parse_timing_report content = some d → d.failing_endpoints = natOfDigits num) ∧
    (∀ (content pre w1 w2 w3 w4 w5 w6 w7 w8 used mid avail pct rest : Str) (q : ℚ)
        (d : UtilizationData),
      content = pre ++ "CLB LUTs".toList ++ w1 ++ ['|'] ++ w2 ++ used ++ w3 ++ ['|'] ++
        w4 ++ mid ++ w5 ++ ['|'] ++ w6 ++ avail ++ w7 ++ ['|'] ++ w8 ++ pct ++ rest →
      w1.all isSpaceChar = true → w2.all isSpaceChar = true →
      w3.all isSpaceChar = true → w4.all isSpaceChar = true →
      w5.all isSpaceChar = true → w6.all isSpaceChar = true →
      w7.all isSpaceChar = true → w8.all isSpaceChar = true →
      used ≠ [] → used.all Char.isDigit = true → mid ≠ [] → mid.all Char.isDigit = true →
      avail ≠ [] → avail.all Char.isDigit = true → pct ≠ [] → pct.all isFloatChar = true →
      headNotB isFloatChar rest = true →
      (∀ j < pre.length, matchAt (utilRowPat "CLB LUTs") (content.drop j) = none) →
      pyFloat? pct = some q →
      parse_utilization_report content = some d →
      d.lut = { used := natOfDigits used, available := natOfDigits avail,
                utilization := q }) ∧
    (∀ (content pre w1 w2 w3 w4 w5 w6 w7 w8 used mid avail pct rest : Str) (q : ℚ)
        (d : UtilizationData),
      content = pre ++ "CLB Registers".toList ++ w1 ++ ['|'] ++ w2 ++ used ++ w3 ++ ['|'] ++
        w4 ++ mid ++ w5 ++ ['|'] ++ w6 ++ avail ++ w7 ++ ['|'] ++ w8 ++ pct ++ rest →
      w1.all isSpaceChar = true → w2.all isSpaceChar = true →
      w3.all isSpaceChar = true → w4.all isSpaceChar = true →
      w5.all isSpaceChar = true → w6.all isSpaceChar = true →
      w7.all isSpaceChar = true → w8.all isSpaceChar = true →
      used ≠ [] → used.all Char.isDigit = true → mid ≠ [] → mid.all Char.isDigit = true →
      avail ≠ [] → avail.all Char.isDigit = true → pct ≠ [] → pct.all isFloatChar = true →
      headNotB isFloatChar rest = true →
      (∀ j < pre.length, matchAt (utilRowPat "CLB Registers") (content.drop j) = none) →
      pyFloat? pct = some q →
      parse_utilization_report content = some d →
      d.ff = { used := natOfDigits used, available := natOfDigits avail,
               utilization := q }) ∧
    (∀ (content pre w1 w2 w3 w4 w5 w6 w7 w8 used mid avail pct rest : Str) (q : ℚ)
        (d : UtilizationData),
      content = pre ++ "Block RAM Tile".toList ++ w1 ++ ['|'] ++ w2 ++ used ++ w3 ++ ['|'] ++
        w4 ++ mid ++ w5 ++ ['|'] ++ w6 ++ avail ++ w7 ++ ['|'] ++ w8 ++ pct ++ rest →
      w1.all isSpaceChar = true → w2.all isSpaceChar = true →
      w3.all isSpaceChar = true → w4.all isSpaceChar = true →
      w5.all isSpaceChar = true → w6.all isSpaceChar = true →
      w7.all isSpaceChar = true → w8.all isSpaceChar = true →
      used ≠ [] → used.all Char.isDigit = true → mid ≠ [] → mid.all Char.isDigit = true →
      avail ≠ [] → avail.all Char.isDigit = true → pct ≠ [] → pct.all isFloatChar = true →
      headNotB isFloatChar rest = true →
      (∀ j < pre.length, matchAt (utilRowPat "Block RAM Tile") (content.drop j) = none) →
      pyFloat? pct = some q →
      parse_utilization_report content = some d →
      d.bram = { used := natOfDigits used, available := natOfDigits avail,
                 utilization := q }) ∧
    (∀ (content pre w1 w2 w3 w4 w5 w6 w7 w8 used mid avail pct rest : Str) (q : ℚ)
        (d : UtilizationData),
      content = pre ++ "DSPs".toList ++ w1 ++ ['|'] ++ w2 ++ used ++ w3 ++ ['|'] ++
        w4 ++ mid ++ w5 ++ ['|'] ++ w6 ++ avail ++ w7 ++ ['|'] ++ w8 ++ pct ++ rest →
      w1.all isSpaceChar = true → w2.all isSpaceChar = true →
      w3.all isSpaceChar = true → w4.all isSpaceChar = true →
      w5.all isSpaceChar = true → w6.all isSpaceChar = true →
      w7.all isSpaceChar = true → w8.all isSpaceChar = true →
      used ≠ [] → used.all Char.isDigit = true → mid ≠ [] → mid.all Char.isDigit = true →
      avail ≠ [] → avail.all Char.isDigit = true → pct ≠ [] → pct.all isFloatChar = true →
      headNotB isFloatChar rest = true →
      (∀ j < pre.length, matchAt (utilRowPat "DSPs") (content.drop j) = none) →
      pyFloat? pct = some q →
      parse_utilization_report content = some d →
      d.dsp = { used := natOfDigits used, available := natOfDigits avail,
                utilization := q }) ∧
    (∀ (content pre w1 w2 num rest : Str) (q : ℚ) (d : PowerData),
      content = pre ++ "Total On-Chip Power (W)".toList ++ w1 ++ ['|'] ++ w2 ++ num ++ rest →
      w1.all isSpaceChar = true → w2.all isSpaceChar = true →
      num ≠ [] → num.all isFloatChar = true → headNotB isFloatChar rest = true →
      (∀ j < pre.length, matchAt (powerRowPat "Total On-Chip Power (W)") (content.drop j) = none) →
      pyFloat? num = some q →
      parse_power_report content = some d → d.total_power = q) ∧
    (∀ (content pre w1 w2 num rest : Str) (q : ℚ) (d : PowerData),
      content = pre ++ "Dynamic (W)".toList ++ w1 ++ ['|'] ++ w2 ++ num ++ rest →
      w1.all isSpaceChar = true → w2.all isSpaceChar = true →
      num ≠ [] → num.all isFloatChar = true → headNotB isFloatChar rest = true →
      (∀ j < pre.length, matchAt (powerRowPat "Dynamic (W)") (content.drop j) = none) →
      pyFloat? num = some q →
      parse_power_report content = some d → d.dynamic_power = q) ∧
    (∀ (content pre w1 w2 num rest : Str) (q : ℚ) (d : PowerData),
      content = pre ++ "Device Static (W)".toList ++ w1 ++ ['|'] ++ w2 ++ num ++ rest →
      w1.all isSpaceChar = true → w2.all isSpaceChar = true →
      num ≠ [] → num.all isFloatChar = true → headNotB isFloatChar rest = true →
      (∀ j < pre.length, matchAt (powerRowPat "Device Static (W)") (content.drop j) = none) →
      pyFloat? num = some q →
      parse_power_report content = some d → d.static_power = q) := by
  refine ⟨?_, ?_, ?_, ?_, ?_, ?_, ?_, ?_, ?_, ?_, ?_⟩
  · intro content pre w num rest q d hc hw hne hnum hrest hfirst hq hparse
    exact wns_field_of_decomposition hc hw hne hnum hrest hfirst hq hparse
  · intro content pre w num rest q d hc hw hne hnum hrest hfirst hq hparse
    subst hc
    unfold tnsPat at hfirst
    have hx := timingField_extract "TNS(ns):" space_not_num hw hne hnum hrest hfirst hq
    have hp := (parse_timing_proj hparse).2.1
    unfold tnsPat at hp
    rw [hx] at hp
    exact (Option.some.inj hp).symm
  · intro content pre w num rest q d hc hw hne hnum hrest hfirst hq hparse
    subst hc
    unfold whsPat at hfirst
    have hx := timingField_extract "WHS(ns):" space_not_num hw hne hnum hrest hfirst hq
    have hp := (parse_timing_proj hparse).2.2.1
    unfold whsPat at hp
    rw [hx] at hp
    exact (Option.some.inj hp).symm
  · intro content pre w num rest d hc hw hne hnum hrest hfirst hparse
    subst hc
    unfold failingEndpointsPat at hfirst
    have hs := search_labelNumPat "Failing Endpoints:" space_not_digit hw hne hnum hrest hfirst
    have hp := (parse_timing_proj hparse).2.2.2.2
    unfold failingEndpointsPat at hp
    rw [hs] at hp
    simpa [group_one] using hp
  · intro content pre w1 w2 w3 w4 w5 w6 w7 w8 used mid avail pct rest q d hc
      h1 h2 h3 h4 h5 h6 h7 h8 hu hua hm hma hv hva hp hpa hrest hfirst hq hparse
    subst hc
    have hx := utilRow_extract "CLB LUTs" h1 h2 h3 h4 h5 h6 h7 h8 hu hua hm hma hv hva
      hp hpa hrest hfirst hq
    have hpr := (parse_util_proj hparse).1
    rw [hx] at hpr
    exact (Option.some.inj hpr).symm
  · intro content pre w1 w2 w3 w4 w5 w6 w7 w8 used mid avail pct rest q d hc
      h1 h2 h3 h4 h5 h6 h7 h8 hu hua hm hma hv hva hp hpa hrest hfirst hq hparse
    subst hc
    have hx := utilRow_extract "CLB Registers" h1 h2 h3 h4 h5 h6 h7 h8 hu hua hm hma hv hva
      hp hpa hrest hfirst hq
    have hpr := (parse_util_proj hparse).2.1
    rw [hx] at hpr
    exact (Option.some.inj hpr).symm
  · intro content pre w1 w2 w3 w4 w5 w6 w7 w8 used mid avail pct rest q d hc
      h1 h2 h3 h4 h5 h6 h7 h8 hu hua hm hma hv hva hp hpa hrest hfirst hq hparse
    subst hc
    have hx := utilRow_extract "Block RAM Tile" h1 h2 h3 h4 h5 h6 h7 h8 hu hua hm hma hv hva
      hp hpa hrest hfirst hq
    have hpr := (parse_util_proj hparse).2.2.1
    rw [hx] at hpr
    exact (Option.some.inj hpr).symm
  · intro content pre w1 w2 w3 w4 w5 w6 w7 w8 used mid avail pct rest q d hc
      h1 h2 h3 h4 h5 h6 h7 h8 hu hua hm hma hv hva hp hpa hrest hfirst hq hparse
    subst hc
    have hx := utilRow_extract "DSPs" h1 h2 h3 h4 h5 h6 h7 h8 hu hua hm hma hv hva
      hp hpa hrest hfirst hq
    have hpr := (parse_util_proj hparse).2.2.2
    rw [hx] at hpr
    exact (Option.some.inj hpr).symm
  · intro content pre w1 w2 num rest q d hc hw1 hw2 hne hnum hrest hfirst hq hparse
    subst hc
    have hx := powerField_extract "Total On-Chip Power (W)" hw1 hw2 hne hnum hrest hfirst hq
    have hpr := (parse_power_proj hparse).1
    rw [hx] at hpr
    exact (Option.some.inj hpr).symm
  · intro content pre w1 w2 num rest q d hc hw1 hw2 hne hnum hrest hfirst hq hparse
    subst hc
    have hx := powerField_extract "Dynamic (W)" hw1 hw2 hne hnum hrest hfirst hq
    have hpr := (parse_power_proj hparse).2.1
    rw [hx] at hpr
    exact (Option.some.inj hpr).symm
  · intro content pre w1 w2 num rest q d hc hw1 hw2 hne hnum hrest hfirst hq hparse
    subst hc
    have hx := powerField_extract "Device Static (W)" hw1 hw2 hne hnum hrest hfirst hq
    have hpr := (parse_power_proj hparse).2.2.1
    rw [hx] at hpr
    exact (Option.some.inj hpr).symm

def c1TimingText : Str := "WNS(ns): -0.123".toList

def c1UtilText : Str := "CLB LUTs | 1000 | 0 | 5000 | 20.0".toList

def c1PowerText : Str := "Total On-Chip Power (W) | 2.345".toList

/-- Witness for C1 at the spec's own scenarios. -/
theorem C1_parsers_extract_labeled_values_witness :
    (∃ d, parse_timing_report c1TimingText = some d ∧ d.wns = some (-((123:ℚ)/1000))) ∧
    (∃ d, parse_utilization_report c1UtilText = some d ∧
      d.lut = { used := 1000, available := 5000, utilization := (20:ℚ) }) ∧
    (∃ d, parse_power_report c1PowerText = some d ∧ d.total_power = (2345:ℚ)/1000) := by
  have hqW : pyFloat? ['-','0','.','1','2','3'] = some (-((123:ℚ)/1000)) := by
    simp only [pyFloat?,
      show pyFloatRep? ['-','0','.','1','2','3'] = some ⟨true, ['0'], ['1','2','3']⟩ from
        by decide,
      Option.map_some', floatRepVal, decimalVal,
      show natOfDigits ['0'] = 0 from by decide,
      show natOfDigits ['1','2','3'] = 123 from by decide]
    norm_num
  have hparseW : parse_timing_report c1TimingText =
      some { wns := some (-((123:ℚ)/1000)), tns := none, whs := none, ths := none,
             failing_endpoints := 0 } := by
    simp only [parse_timing_report, timingField,
      show search wnsPat c1TimingText = some [['-','0','.','1','2','3']] from by decide,
      show search tnsPat c1TimingText = none from by decide,
      show search whsPat c1TimingText = none from by decide,
      show search failingEndpointsPat c1TimingText = none from by decide,
      show group [['-','0','.','1','2','3']] 1 = ['-','0','.','1','2','3'] from by decide,
      hqW, Option.map_some', Option.bind_eq_bind, Option.some_bind]
  have hqU : pyFloat? ['2','0','.','0'] = some 20 := by
    simp only [pyFloat?,
      show pyFloatRep? ['2','0','.','0'] = some ⟨false, ['2','0'], ['0']⟩ from by decide,
      Option.map_some', floatRepVal, decimalVal,
      show natOfDigits ['2','0'] = 20 from by decide,
      show natOfDigits ['0'] = 0 from by decide]
    norm_num
  have hparseU : parse_utilization_report c1UtilText =
      some { lut := { used := 1000, available := 5000, utilization := (20:ℚ) },
             ff := defaultResource, bram := defaultResource, dsp := defaultResource } := by
    simp only [parse_utilization_report, utilRow,
      show search (utilRowPat "CLB LUTs") c1UtilText =
        some [['1','0','0','0'], ['5','0','0','0'], ['2','0','.','0']] from by decide,
      show search (utilRowPat "CLB Registers") c1UtilText = none from by decide,
      show search (utilRowPat "Block RAM Tile") c1UtilText = none from by decide,
      show search (utilRowPat "DSPs") c1UtilText = none from by decide,
      show group [['1','0','0','0'], ['5','0','0','0'], ['2','0','.','0']] 1 =
        ['1','0','0','0'] from by decide,
      show group [['1','0','0','0'], ['5','0','0','0'], ['2','0','.','0']] 2 =
        ['5','0','0','0'] from by decide,
      show group [['1','0','0','0'], ['5','0','0','0'], ['2','0','.','0']] 3 =
        ['2','0','.','0'] from by decide,
      hqU, Option.map_some', Option.bind_eq_bind, Option.some_bind,
      show natOfDigits ['1','0','0','0'] = 1000 from by decide,
      show natOfDigits ['5','0','0','0'] = 5000 from by decide]
  have hqP : pyFloat? ['2','.','3','4','5'] = some ((2345:ℚ)/1000) := by
    simp only [pyFloat?,
      show pyFloatRep? ['2','.','3','4','5'] = some ⟨false, ['2'], ['3','4','5']⟩ from
        by decide,
      Option.map_some', floatRepVal, decimalVal,
      show natOfDigits ['2'] = 2 from by decide,
      show natOfDigits ['3','4','5'] = 345 from by decide]
    norm_num
  have hparseP : parse_power_report c1PowerText =
      some { total_power := (2345:ℚ)/1000, dynamic_power := 0, static_power := 0,
             confidence := "Low".toList } := by
    simp only [parse_power_report, powerField,
      show search (powerRowPat "Total On-Chip Power (W)") c1PowerText =
        some [['2','.','3','4','5']] from by decide,
      show search (powerRowPat "Dynamic (W)") c1PowerText = none from by decide,
      show search (powerRowPat "Device Static (W)") c1PowerText = none from by decide,
      show group [['2','.','3','4','5']] 1 = ['2','.','3','4','5'] from by decide,
      hqP, Option.bind_eq_bind, Option.some_bind]
  refine ⟨⟨_, hparseW, ?_⟩, ⟨_, hparseU, ?_⟩, ⟨_, hparseP, ?_⟩⟩
  · exact C1_parsers_extract_labeled_values.1 c1TimingText [] [' ']
      ['-','0','.','1','2','3'] [] (-((123:ℚ)/1000)) _
      (by decide) (by decide) (by decide) (by decide) (by decide)
      (fun j hj => absurd hj (Nat.not_lt_zero j)) hqW hparseW
  · exact C1_parsers_extract_labeled_values.2.2.2.2.1 c1UtilText [] [' '] [' ']
      [' '] [' '] [' '] [' '] [' '] [' ']
      ['1','0','0','0'] ['0'] ['5','0','0','0'] ['2','0','.','0'] [] 20 _
      (by decide) (by decide) (by decide) (by decide) (by decide) (by decide) (by decide)
      (by decide) (by decide) (by decide) (by decide) (by decide) (by decide) (by decide)
      (by decide) (by decide) (by decide) (by decide)
      (fun j hj => absurd hj (Nat.not_lt_zero j)) hqU hparseU
  · exact C1_parsers_extract_labeled_values.2.2.2.2.2.2.2.2.1 c1PowerText [] [' '] [' ']
      ['2','.','3','4','5'] [] ((2345:ℚ)/1000) _
      (by decide) (by decide) (by decide) (by decide) (by decide) (by decide)
      (fun j hj => absurd hj (Nat.not_lt_zero j)) hqP hparseP

/-! ## Claims C2 and C3 -/

theorem timingField_none {pat : List Tok} {content : Str}
    (h : search pat content = none) : timingField pat content = some none := by
  unfold timingField
  rw [h]

theorem utilRow_none {label : String} {content : Str}
    (h : search (utilRowPat label) content = none) :
    utilRow label content = some defaultResource := by
  unfold utilRow
  rw [h]

theorem powerField_none {label : String} {content : Str}
    (h : search (powerRowPat label) content = none) :
    powerField label content = some 0 := by
  unfold powerField
  rw [h]

theorem timingField_none_cases {pat : List Tok} {content : Str}
    (h : timingField pat content = none) :
    ∃ m, search pat content = some m ∧ pyFloat? (group m 1) = none := by
  unfold timingField at h
  cases hs : search pat content with
  | none => rw [hs] at h; cases h
  | some m =>
    rw [hs] at h
    exact ⟨m, rfl, Option.map_eq_none'.mp h⟩

theorem utilRow_none_cases {label : String} {content : Str}
    (h : utilRow label content = none) :
    ∃ m, search (utilRowPat label) content = some m ∧ pyFloat? (group m 3) = none := by
  unfold utilRow at h
  cases hs : search (utilRowPat label) content with
  | none => rw [hs] at h; cases h
  | some m =>
    rw [hs] at h
    exact ⟨m, rfl, Option.map_eq_none'.mp h⟩

theorem powerField_none_cases {label : String} {content : Str}
    (h : powerField label content = none) :
    ∃ m, search (powerRowPat label) content = some m ∧ pyFloat? (group m 1) = none := by
  unfold powerField at h
  cases hs : search (powerRowPat label) content with
  | none => rw [hs] at h; cases h
  | some m =>
    rw [hs] at h
    exact ⟨m, rfl, h⟩

theorem parse_timing_none_cases {content : Str}
    (h : parse_timing_report content = none) :
    timingField wnsPat content = none ∨ timingField tnsPat content = none ∨
    timingField whsPat content = none := by
  by_contra hc
  push_neg at hc
  obtain ⟨h1, h2, h3⟩ := hc
  cases e1 : timingField wnsPat content with
  | none => exact h1 e1
  | some a =>
    cases e2 : timingField tnsPat content with
    | none => exact h2 e2
    | some b =>
      cases e3 : timingField whsPat content with
      | none => exact h3 e3
      | some c =>
        unfold parse_timing_report at h
        rw [e1] at h
        simp only [Option.bind_eq_bind, Option.some_bind] at h
        rw [e2] at h
        simp only [Option.some_bind] at h
        rw [e3] at h
        simp only [Option.some_bind] at h
        cases h

theorem parse_util_none_cases {content : Str}
    (h : parse_utilization_report content = none) :
    utilRow "CLB LUTs" content = none ∨ utilRow "CLB Registers" content = none ∨
    utilRow "Block RAM Tile" content = none ∨ utilRow "DSPs" content = none := by
  by_contra hc
  push_neg at hc
  obtain ⟨h1, h2, h3, h4⟩ := hc
  cases e1 : utilRow "CLB LUTs" content with
  | none => exact h1 e1
  | some a =>
    cases e2 : utilRow "CLB Registers" content with
    | none => exact h2 e2
    | some b =>
      cases e3 : utilRow "Block RAM Tile" content with
      | none => exact h3 e3
      | some c =>
        cases e4 : utilRow "DSPs" content with
        | none => exact h4 e4
        | some e =>
          unfold parse_utilization_report at h
          rw [e1] at h
          simp only [Option.bind_eq_bind, Option.some_bind] at h
          rw [e2] at h
          simp only [Option.some_bind] at h
          rw [e3] at h
          simp only [Option.some_bind] at h
          rw [e4] at h
          simp only [Option.some_bind] at h
          cases h

theorem parse_power_none_cases {content : Str}
    (h : parse_power_report content = none) :
    powerField "Total On-Chip Power (W)" content = none ∨
    powerField "Dynamic (W)" content = none ∨
    powerField "Device Static (W)" content = none := by
  by_contra hc
  push_neg at hc
  obtain ⟨h1, h2, h3⟩ := hc
  cases e1 : powerField "Total On-Chip Power (W)" content with
  | none => exact h1 e1
  | some a =>
    cases e2 : powerField "Dynamic (W)" content with
    | none => exact h2 e2
    | some b =>
      cases e3 : powerField "Device Static (W)" content with
      | none => exact h3 e3
      | some c =>
        unfold parse_power_report at h
        rw [e1] at h
        simp only [Option.bind_eq_bind, Option.some_bind] at h
        rw [e2] at h
        simp only [Option.some_bind] at h
        rw [e3] at h
        simp only [Option.some_bind] at h
        cases h

/-- C2: For every report text in which a given label's pattern does not match,
the parser records the documented default for that field (null for slacks,
zero for the failing-endpoint count, zeros for utilization entries, zero for
power quantities) instead of raising; and a parse can only fail through a
field that is present but inconvertible, never through an absent field. -/
theorem C2_missing_fields_default :
    (∀ (content : Str) (d : TimingData), parse_timing_report content = some d →
      (search wnsPat content = none → d.wns = none) ∧
      (search tnsPat content = none → d.tns = none) ∧
      (search whsPat content = none → d.whs = none) ∧
      (search failingEndpointsPat content = none → d.failing_endpoints = 0)) ∧
    (∀ (content : Str) (d : UtilizationData), parse_utilization_report content = some d →
      (search (utilRowPat "CLB LUTs") content = none → d.lut = defaultResource) ∧
      (search (utilRowPat "CLB Registers") content = none → d.ff = defaultResource) ∧
      (search (utilRowPat "Block RAM Tile") content = none → d.bram = defaultResource) ∧
      (search (utilRowPat "DSPs") content = none → d.dsp = defaultResource)) ∧
    (∀ (content : Str) (d : PowerData), parse_power_report content = some d →
      (search (powerRowPat "Total On-Chip Power (W)") content = none → d.total_power = 0) ∧
      (search (powerRowPat "Dynamic (W)") content = none → d.dynamic_power = 0) ∧
      (search (powerRowPat "Device Static (W)") content = none → d.static_power = 0)) ∧
    (∀ content : Str, parse_timing_report content = none →
      (∃ m, search wnsPat content = some m ∧ pyFloat? (group m 1) = none) ∨
      (∃ m, search tnsPat content = some m ∧ pyFloat? (group m 1) = none) ∨
      (∃ m, search whsPat content = some m ∧ pyFloat? (group m 1) = none)) ∧
    (∀ content : Str, parse_utilization_report content = none →
      (∃ m, search (utilRowPat "CLB LUTs") content = some m ∧ pyFloat? (group m 3) = none) ∨
      (∃ m, search (utilRowPat "CLB Registers") content = some m ∧
        pyFloat? (group m 3) = none) ∨
      (∃ m, search (utilRowPat "Block RAM Tile") content = some m ∧
        pyFloat? (group m 3) = none) ∨
      (∃ m, search (utilRowPat "DSPs") content = some m ∧ pyFloat? (group m 3) = none)) ∧
    (∀ content : Str, parse_power_report content = none →
      (∃ m, search (powerRowPat "Total On-Chip Power (W)") content = some m ∧
        pyFloat? (group m 1) = none) ∨
      (∃ m, search (powerRowPat "Dynamic (W)") content = some m ∧
        pyFloat? (group m 1) = none) ∨
      (∃ m, search (powerRowPat "Device Static (W)") content = some m ∧
        pyFloat? (group m 1) = none)) := by
  refine ⟨?_, ?_, ?_, ?_, ?_, ?_⟩
  · intro content d h
    obtain ⟨p1, p2, p3, _, p5⟩ := parse_timing_proj h
    refine ⟨fun hn => ?_, fun hn => ?_, fun hn => ?_, fun hn => ?_⟩
    · rw [timingField_none hn] at p1; exact (Option.some.inj p1).symm
    · rw [timingField_none hn] at p2; exact (Option.some.inj p2).symm
    · rw [timingField_none hn] at p3; exact (Option.some.inj p3).symm
    · rw [hn] at p5; exact p5
  · intro content d h
    obtain ⟨p1, p2, p3, p4⟩ := parse_util_proj h
    refine ⟨fun hn => ?_, fun hn => ?_, fun hn => ?_, fun hn => ?_⟩
    · rw [utilRow_none hn] at p1; exact (Option.some.inj p1).symm
    · rw [utilRow_none hn] at p2; exact (Option.some.inj p2).symm
    · rw [utilRow_none hn] at p3; exact (Option.some.inj p3).symm
    · rw [utilRow_none hn] at p4; exact (Option.some.inj p4).symm
  · intro content d h
    obtain ⟨p1, p2, p3, _⟩ := parse_power_proj h
    refine ⟨fun hn => ?_, fun hn => ?_, fun hn => ?_⟩
    · rw [powerField_none hn] at p1; exact (Option.some.inj p1).symm
    · rw [powerField_none hn] at p2; exact (Option.some.inj p2).symm
    · rw [powerField_none hn] at p3; exact (Option.some.inj p3).symm
  · intro content h
    rcases parse_timing_none_cases h with hf | hf | hf
    · exact Or.inl (timingField_none_cases hf)
    · exact Or.inr (Or.inl (timingField_none_cases hf))
    · exact Or.inr (Or.inr (timingField_none_cases hf))
  · intro content h
    rcases parse_util_none_cases h with hf | hf | hf | hf
    · exact Or.inl (utilRow_none_cases hf)
    · exact Or.inr (Or.inl (utilRow_none_cases hf))
    · exact Or.inr (Or.inr (Or.inl (utilRow_none_cases hf)))
    · exact Or.inr (Or.inr (Or.inr (utilRow_none_cases hf)))
  · intro content h
    rcases parse_power_none_cases h with hf | hf | hf
    · exact Or.inl (powerField_none_cases hf)
    · exact Or.inr (Or.inl (powerField_none_cases hf))
    · exact Or.inr (Or.inr (powerField_none_cases hf))

def emptyReportText : Str := []

def badTimingText : Str := "WNS(ns): -".toList

def badUtilText : Str := "CLB LUTs | 1 | 0 | 2 | 1.2.3".toList

def badPowerText : Str := "Dynamic (W) | .".toList

/-- Witness for C2: absent labels yield the defaults on an empty report, and
each failing parse exhibits a matched-but-inconvertible capture. -/
theorem C2_missing_fields_default_witness :
    (∃ d, parse_timing_report emptyReportText = some d ∧ d.wns = none ∧
      d.failing_endpoints = 0) ∧
    (∃ d, parse_utilization_report emptyReportText = some d ∧ d.lut = defaultResource) ∧
    (∃ d, parse_power_report emptyReportText = some d ∧ d.total_power = 0) ∧
    ((∃ m, search wnsPat badTimingText = some m ∧ pyFloat? (group m 1) = none) ∨
      (∃ m, search tnsPat badTimingText = some m ∧ pyFloat? (group m 1) = none) ∨
      (∃ m, search whsPat badTimingText = some m ∧ pyFloat? (group m 1) = none)) ∧
    ((∃ m, search (utilRowPat "CLB LUTs") badUtilText = some m ∧
        pyFloat? (group m 3) = none) ∨
      (∃ m, search (utilRowPat "CLB Registers") badUtilText = some m ∧
        pyFloat? (group m 3) = none) ∨
      (∃ m, search (utilRowPat "Block RAM Tile") badUtilText = some m ∧
        pyFloat? (group m 3) = none) ∨
      (∃ m, search (utilRowPat "DSPs") badUtilText = some m ∧
        pyFloat? (group m 3) = none)) ∧
    ((∃ m, search (powerRowPat "Total On-Chip Power (W)") badPowerText = some m ∧
        pyFloat? (group m 1) = none) ∨
      (∃ m, search (powerRowPat "Dynamic (W)") badPowerText = some m ∧
        pyFloat? (group m 1) = none) ∨
      (∃ m, search (powerRowPat "Device Static (W)") badPowerText = some m ∧
        pyFloat? (group m 1) = none)) := by
  have hT : parse_timing_report emptyReportText = some defaultTiming := by decide
  have hU : parse_utilization_report emptyReportText = some defaultUtilization := by decide
  have hP : parse_power_report emptyReportText = some defaultPower := by decide
  refine ⟨⟨defaultTiming, hT,
      (C2_missing_fields_default.1 emptyReportText defaultTiming hT).1 (by decide),
      (C2_missing_fields_default.1 emptyReportText defaultTiming hT).2.2.2 (by decide)⟩,
    ⟨defaultUtilization, hU,
      (C2_missing_fields_default.2.1 emptyReportText defaultUtilization hU).1 (by decide)⟩,
    ⟨defaultPower, hP,
      (C2_missing_fields_default.2.2.1 emptyReportText defaultPower hP).1 (by decide)⟩,
    C2_missing_fields_default.2.2.2.1 badTimingText (by decide),
    C2_missing_fields_default.2.2.2.2.1 badUtilText (by decide),
    C2_missing_fields_default.2.2.2.2.2 badPowerText (by decide)⟩

/-- C3: For every report text where a label's pattern matches but the captured
text is not convertible to a float (e.g. `-` or `1.2.3`), the parser raises a
fatal parse error that propagates to the caller, rather than silently
substituting the default. -/
theorem C3_malformed_match_raises :
    (∀ (content : Str) (m : List Str), search wnsPat content = some m →
      pyFloat? (group m 1) = none → parse_timing_report content = none) ∧
    (∀ (content : Str) (m : List Str), search tnsPat content = some m →
      pyFloat? (group m 1) = none → parse_timing_report content = none) ∧
    (∀ (content : Str) (m : List Str), search whsPat content = some m →
      pyFloat? (group m 1) = none → parse_timing_report content = none) ∧
    (∀ (content : Str) (m : List Str), search (utilRowPat "CLB LUTs") content = some m →
      pyFloat? (group m 3) = none → parse_utilization_report content = none) ∧
    (∀ (content : Str) (m : List Str), search (utilRowPat "CLB Registers") content = some m →
      pyFloat? (group m 3) = none → parse_utilization_report content = none) ∧
    (∀ (content : Str) (m : List Str), search (utilRowPat "Block RAM Tile") content = some m →
      pyFloat? (group m 3) = none → parse_utilization_report content = none) ∧
    (∀ (content : Str) (m : List Str), search (utilRowPat "DSPs") content = some m →
      pyFloat? (group m 3) = none → parse_utilization_report content = none) ∧
    (∀ (content : Str) (m : List Str),
      search (powerRowPat "Total On-Chip Power (W)") content = some m →
      pyFloat? (group m 1) = none → parse_power_report content = none) ∧
    (∀ (content : Str) (m : List Str), search (powerRowPat "Dynamic (W)") content = some m →
      pyFloat? (group m 1) = none → parse_power_report content = none) ∧
    (∀ (content : Str) (m : List Str),
      search (powerRowPat "Device Static (W)") content = some m →
      pyFloat? (group m 1) = none → parse_power_report content = none) := by
  refine ⟨?_, ?_, ?_, ?_, ?_, ?_, ?_, ?_, ?_, ?_⟩
  · intro content m hs hq
    refine parse_timing_raises (Or.inl ?_)
    unfold timingField
    rw [hs]
    simp only [hq, Option.map_none']
  · intro content m hs hq
    refine parse_timing_raises (Or.inr (Or.inl ?_))
    unfold timingField
    rw [hs]
    simp only [hq, Option.map_none']
  · intro content m hs hq
    refine parse_timing_raises (Or.inr (Or.inr ?_))
    unfold timingField
    rw [hs]
    simp only [hq, Option.map_none']
  · intro content m hs hq
    refine parse_util_raises (Or.inl ?_)
    unfold utilRow
    rw [hs]
    simp only [hq, Option.map_none']
  · intro content m hs hq
    refine parse_util_raises (Or.inr (Or.inl ?_))
    unfold utilRow
    rw [hs]
    simp only [hq, Option.map_none']
  · intro content m hs hq
    refine parse_util_raises (Or.inr (Or.inr (Or.inl ?_)))
    unfold utilRow
    rw [hs]
    simp only [hq, Option.map_none']
  · intro content m hs hq
    refine parse_util_raises (Or.inr (Or.inr (Or.inr ?_)))
    unfold utilRow
    rw [hs]
    simp only [hq, Option.map_none']
  · intro content m hs hq
    refine parse_power_raises (Or.inl ?_)
    unfold powerField
    rw [hs]
    simp only [hq]
  · intro content m hs hq
    refine parse_power_raises (Or.inr (Or.inl ?_))
    unfold powerField
    rw [hs]
    simp only [hq]
  · intro content m hs hq
    refine parse_power_raises (Or.inr (Or.inr ?_))
    unfold powerField
    rw [hs]
    simp only [hq]

/-- Witness for C3: a matched `-` slack, a matched `1.2.3` percentage and a
matched `.` power value each abort their parser. -/
theorem C3_malformed_match_raises_witness :
    parse_timing_report badTimingText = none ∧
    parse_utilization_report badUtilText = none ∧
    parse_power_report badPowerText = none :=
  ⟨C3_malformed_match_raises.1 badTimingText [['-']] (by decide) (by decide),
   C3_malformed_match_raises.2.2.2.1 badUtilText
     [['1'], ['2'], ['1','.','2','.','3']] (by decide) (by decide),
   C3_malformed_match_raises.2.2.2.2.2.2.2.2.1 badPowerText [['.']]
     (by decide) (by decide)⟩

/-! ## Claim C5 -/

def negPowerText : Str := "Total On-Chip Power (W) | -2.5".toList

def negUtilText : Str := "CLB LUTs | -1 | 0 | 5 | 2.0".toList

/-- Counterexample to C5: the power pattern `[\d.]+` does not accept a minus
sign.  On `"Total On-Chip Power (W) | -2.5"` the pattern does not match at
all, the field keeps its default 0, and 0 is not the literal -2.5 — the
negative decimal value is skipped/defaulted, not matched and converted. -/
theorem C5_counterexample :
    search (powerRowPat "Total On-Chip Power (W)") negPowerText = none ∧
    parse_power_report negPowerText =
      some { total_power := 0, dynamic_power := 0, static_power := 0,
             confidence := "Low".toList } ∧
    (0 : ℚ) ≠ -((5:ℚ)/2) := by
  refine ⟨by decide, by decide, by norm_num⟩

/-- C5 (amended): the timing slack patterns (`[-\d.]+`) match and convert a
negative decimal value following their label; the utilization count patterns
(`\d+`) and the utilization-percentage/power patterns (`[\d.]+`) do not
include the minus sign in the value position, so a negative decimal value
following those labels is not matched and the field keeps its default. -/
theorem C5_amended_negative_values :
    (∀ (content pre w numtail rest : Str) (q : ℚ) (d : TimingData),
      content = pre ++ "WNS(ns):".toList ++ w ++ ('-' :: numtail) ++ rest →
      w.all isSpaceChar = true → ('-' :: numtail).all isNumChar = true →
      headNotB isNumChar rest = true →
      (∀ j < pre.length, matchAt wnsPat (content.drop j) = none) →
      pyFloat? ('-' :: numtail) = some q →
      parse_timing_report content = some d → d.wns = some q) ∧
    (isNumChar '-' = true ∧ Char.isDigit '-' = false ∧ isFloatChar '-' = false) ∧
    (parse_power_report negPowerText =
      some { total_power := 0, dynamic_power := 0, static_power := 0,
             confidence := "Low".toList }) ∧
    (parse_utilization_report negUtilText = some defaultUtilization) := by
  refine ⟨?_, by decide, by decide, by decide⟩
  intro content pre w numtail rest q d hc hw hnum hrest hfirst hq hparse
  exact wns_field_of_decomposition hc hw (by simp) hnum hrest hfirst hq hparse

/-- Witness for the amended C5 at `"WNS(ns): -0.123"`. -/
theorem C5_amended_negative_values_witness :
    ∃ d, parse_timing_report c1TimingText = some d ∧ d.wns = some (-((123:ℚ)/1000)) := by
  have hqW : pyFloat? ['-','0','.','1','2','3'] = some (-((123:ℚ)/1000)) := by
    simp only [pyFloat?,
      show pyFloatRep? ['-','0','.','1','2','3'] = some ⟨true, ['0'], ['1','2','3']⟩ from
        by decide,
      Option.map_some', floatRepVal, decimalVal,
      show natOfDigits ['0'] = 0 from by decide,
      show natOfDigits ['1','2','3'] = 123 from by decide]
    norm_num
  have hparseW : parse_timing_report c1TimingText =
      some { wns := some (-((123:ℚ)/1000)), tns := none, whs := none, ths := none,
             failing_endpoints := 0 } := by
    simp only [parse_timing_report, timingField,
      show search wnsPat c1TimingText = some [['-','0','.','1','2','3']] from by decide,
      show search tnsPat c1TimingText = none from by decide,
      show search whsPat c1TimingText = none from by decide,
      show search failingEndpointsPat c1TimingText = none from by decide,
      show group [['-','0','.','1','2','3']] 1 = ['-','0','.','1','2','3'] from by decide,
      hqW, Option.map_some', Option.bind_eq_bind, Option.some_bind]
  refine ⟨_, hparseW, ?_⟩
  exact C5_amended_negative_values.1 c1TimingText [] [' '] ['0','.','1','2','3'] []
    (-((123:ℚ)/1000)) _ (by decide) (by decide) (by decide) (by decide)
    (fun j hj => absurd hj (Nat.not_lt_zero j)) hqW hparseW

/-! ## Aggregated results and JSON export

`json.dump` writes the nested dict as a JSON document and `json.loads` reads
it back.  For the value types that occur here (None, arbitrary-precision
ints, floats printed with `repr` round-tripping, strings) the text layer is
lossless and injective, so the dump/load pair is modelled at the level of the
JSON tree. -/

structure AggregatedResult where
  timestamp : Str
  timing : List (Str × TimingData)
  utilization : List (Str × UtilizationData)
  power : List (Str × PowerData)
deriving DecidableEq

inductive Json where
  | jnull
  | jnum (q : ℚ)
  | jint (n : Nat)
  | jstr (s : Str)
  | jobj (fields : List (Str × Json))

def encodeOptFloat : Option ℚ → Json
  | none => .jnull
  | some q => .jnum q

def encodeTiming (d : TimingData) : Json :=
  .jobj [("wns".toList, encodeOptFloat d.wns), ("tns".toList, encodeOptFloat d.tns),
         ("whs".toList, encodeOptFloat d.whs), ("ths".toList, encodeOptFloat d.ths),
         ("failing_endpoints".toList, .jint d.failing_endpoints)]

def encodeResource (r : ResourceUtil) : Json :=
  .jobj [("used".toList, .jint r.used), ("available".toList, .jint r.available),
         ("utilization".toList, .jnum r.utilization)]

def encodeUtilization (d : UtilizationData) : Json :=
  .jobj [("lut".toList, encodeResource d.lut), ("ff".toList, encodeResource d.ff),
         ("bram".toList, encodeResource d.bram), ("dsp".toList, encodeResource d.dsp)]

def encodePower (d : PowerData) : Json :=
  .jobj [("total_power".toList, .jnum d.total_power),
         ("dynamic_power".toList, .jnum d.dynamic_power),
         ("static_power".toList, .jnum d.static_power),
         ("confidence".toList, .jstr d.confidence)]

def encodeMapping {α : Type} (enc : α → Json) (m : List (Str × α)) : Json :=
  .jobj (m.map (fun kv => (kv.1, enc kv.2)))

/-- `save_results_json`: the JSON document written for an aggregated result
(nesting category → report identifier → record fields, plus the timestamp). -/
def save_results_json (r : AggregatedResult) : Json :=
  .jobj [("timestamp".toList, .jstr r.timestamp),
         ("timing".toList, encodeMapping encodeTiming r.timing),
         ("utilization".toList, encodeMapping encodeUtilization r.utilization),
         ("power".toList, encodeMapping encodePower r.power)]

def lookupStr (k : Str) : List (Str × Json) → Option Json
  | [] => none
  | (k', v) :: rest => if k' = k then some v else lookupStr k rest

def jsonLookup (key : String) : Json → Option Json
  | .jobj fields => lookupStr key.toList fields
  | _ => none

def decodeOptFloat : Json → Option (Option ℚ)
  | .jnull => some none
  | .jnum q => some (some q)
  | _ => none

def decodeNum : Json → Option ℚ
  | .jnum q => some q
  | _ => none

def decodeInt : Json → Option Nat
  | .jint n => some n
  | _ => none

def decodeStr : Json → Option Str
  | .jstr s => some s
  | _ => none

def decodeTiming (j : Json) : Option TimingData := do
  let wns ← (jsonLookup "wns" j).bind decodeOptFloat
  let tns ← (jsonLookup "tns" j).bind decodeOptFloat
  let whs ← (jsonLookup "whs" j).bind decodeOptFloat
  let ths ← (jsonLookup "ths" j).bind decodeOptFloat
  let fe ← (jsonLookup "failing_endpoints" j).bind decodeInt
  some ⟨wns, tns, whs, ths, fe⟩

def decodeResource (j : Json) : Option ResourceUtil := do
  let used ← (jsonLookup "used" j).bind decodeInt
  let available ← (jsonLookup "available" j).bind decodeInt
  let utilization ← (jsonLookup "utilization" j).bind decodeNum
  some ⟨used, available, utilization⟩

def decodeUtilization (j : Json) : Option UtilizationData := do
  let lut ← (jsonLookup "lut" j).bind decodeResource
  let ff ← (jsonLookup "ff" j).bind decodeResource
  let bram ← (jsonLookup "bram" j).bind decodeResource
  let dsp ← (jsonLookup "dsp" j).bind decodeResource
  some ⟨lut, ff, bram, dsp⟩

def decodePower (j : Json) : Option PowerData := do
  let total ← (jsonLookup "total_power" j).bind decodeNum
  let dynamic ← (jsonLookup "dynamic_power" j).bind decodeNum
  let static ← (jsonLookup "static_power" j).bind decodeNum
  let confidence ← (jsonLookup "confidence" j).bind decodeStr
  some ⟨total, dynamic, static, confidence⟩

def decodeMapping {α : Type} (dec : Json → Option α) : Json → Option (List (Str × α))
  | .jobj fields => fields.mapM (fun kv => (dec kv.2).map (fun a => (kv.1, a)))
  | _ => none

def loadResults (j : Json) : Option AggregatedResult := do
  let ts ← (jsonLookup "timestamp" j).bind decodeStr
  let timing ← (jsonLookup "timing" j).bind (decodeMapping decodeTiming)
  let utilization ← (jsonLookup "utilization" j).bind (decodeMapping decodeUtilization)
  let power ← (jsonLookup "power" j).bind (decodeMapping decodePower)
  some ⟨ts, timing, utilization, power⟩

theorem decodeOptFloat_encode (x : Option ℚ) :
    decodeOptFloat (encodeOptFloat x) = some x := by
  cases x <;> rfl

theorem decodeTiming_encode (d : TimingData) : decodeTiming (encodeTiming d) = some d := by
  simp [decodeTiming, encodeTiming, jsonLookup, lookupStr, decodeOptFloat_encode, decodeInt]

theorem decodeResource_encode (r : ResourceUtil) :
    decodeResource (encodeResource r) = some r := by
  simp [decodeResource, encodeResource, jsonLookup, lookupStr, decodeInt, decodeNum]

theorem decodeUtilization_encode (d : UtilizationData) :
    decodeUtilization (encodeUtilization d) = some d := by
  simp [decodeUtilization, encodeUtilization, jsonLookup, lookupStr, decodeResource_encode]

theorem decodePower_encode (d : PowerData) : decodePower (encodePower d) = some d := by
  simp [decodePower, encodePower, jsonLookup, lookupStr, decodeNum, decodeStr]

theorem mapM_map_id {α β : Type} (e : α → β) (g : β → Option α) (l : List α)
    (h : ∀ a ∈ l, g (e a) = some a) : (l.map e).mapM g = some l := by
  induction l with
  | nil => rfl
  | cons a as ih =>
    simp only [List.map_cons, List.mapM_cons, h a (List.mem_cons_self a as),
      ih (fun b hb => h b (List.mem_cons_of_mem a hb)), Option.bind_eq_bind,
      Option.some_bind, Option.map_some']
    rfl

theorem decodeMapping_encode {α : Type} (enc : α → Json) (dec : Json → Option α)
    (hde : ∀ a, dec (enc a) = some a) (m : List (Str × α)) :
    decodeMapping dec (encodeMapping enc m) = some m := by
  unfold decodeMapping encodeMapping
  exact mapM_map_id _ _ m (fun kv _ => by simp [hde kv.2])

/-- C7: Exporting an AggregatedResult to JSON and re-parsing that document
reproduces every field value exactly, preserving the nesting
category → report identifier → record fields and the generation timestamp. -/
theorem C7_json_round_trip (r : AggregatedResult) :
    loadResults (save_results_json r) = some r := by
  unfold loadResults save_results_json
  simp [jsonLookup, lookupStr, decodeStr,
    decodeMapping_encode encodeTiming decodeTiming decodeTiming_encode,
    decodeMapping_encode encodeUtilization decodeUtilization decodeUtilization_encode,
    decodeMapping_encode encodePower decodePower decodePower_encode]

/-- C9: The record returned by `parse_timing_report` always carries a fifth
field `ths` equal to null — no pattern ever assigns it — and this field is
included in the JSON export. -/
theorem C9_ths_always_null :
    (∀ (content : Str) (d : TimingData), parse_timing_report content = some d →
      d.ths = none) ∧
    (∀ d : TimingData, d.ths = none →
      jsonLookup "ths" (encodeTiming d) = some Json.jnull) := by
  constructor
  · intro content d h
    exact (parse_timing_proj h).2.2.2.1
  · intro d h
    simp [encodeTiming, jsonLookup, lookupStr, h, encodeOptFloat]

/-- Witness for C9 on the empty report. -/
theorem C9_ths_always_null_witness :
    parse_timing_report emptyReportText = some defaultTiming ∧
    defaultTiming.ths = none ∧
    jsonLookup "ths" (encodeTiming defaultTiming) = some Json.jnull := by
  have h : parse_timing_report emptyReportText = some defaultTiming := by decide
  have h1 := C9_ths_always_null.1 emptyReportText defaultTiming h
  exact ⟨h, h1, C9_ths_always_null.2 defaultTiming h1⟩

/-! ## Directory scan (`analyze_all_reports`)

`self.reports_dir.glob('*KEYWORD*.rpt')` matches a file name against the
fnmatch pattern `*KEYWORD*.rpt`, i.e. exactly when the name splits as
`a ++ KEYWORD ++ b ++ ".rpt"`; files are visited in directory-enumeration
order.  A directory listing is modelled as an ordered list of
(file name, file content) pairs. -/

def rptExt : Str := ".rpt".toList

/-- fnmatch of `*kw*.rpt` against `name`: some suffix of `name` starts with
`kw` and, after it, ends with `".rpt"`. -/
def globStarMatch (kw : Str) (name : Str) : Bool :=
  name.tails.any (fun s => kw.isPrefixOf s && rptExt.isSuffixOf (s.drop kw.length))

/-- Index of the last occurrence of `c` in `l`, if any. -/
def rfindIdx (c : Char) (l : Str) : Option Nat :=
  match l.reverse.findIdx? (fun x => x = c) with
  | none => none
  | some k => some (l.length - 1 - k)

/-- `pathlib.PurePath.stem`: the name without its last suffix; a dot in the
first position or a trailing dot does not begin a suffix. -/
def stem (name : Str) : Str :=
  match rfindIdx '.' name with
  | none => name
  | some i => if 0 < i ∧ i < name.length - 1 then name.take i else name

/-- Python dict assignment `d[k] = v`: replaces in place if the key exists,
appends otherwise (insertion order preserved). -/
def dictInsert {α : Type} (k : Str) (v : α) : List (Str × α) → List (Str × α)
  | [] => [(k, v)]
  | (k', v') :: rest =>
    if k' = k then (k, v) :: rest else (k', v') :: dictInsert k v rest

/-- `analyze_all_reports`: scan the directory once per category, parse each
matching file, key the record by the file's stem.  The timestamp
(`datetime.now().isoformat()`) is an input of the model. -/
def analyze_all_reports (ts : Str) (dir : List (Str × Str)) : Option AggregatedResult := do
  let timing ← (dir.filter (fun f => globStarMatch "timing".toList f.1)).foldlM
    (fun acc f => (parse_timing_report f.2).map (fun d => dictInsert (stem f.1) d acc)) []
  let utilization ← (dir.filter (fun f => globStarMatch "utilization".toList f.1)).foldlM
    (fun acc f => (parse_utilization_report f.2).map (fun d => dictInsert (stem f.1) d acc)) []
  let power ← (dir.filter (fun f => globStarMatch "power".toList f.1)).foldlM
    (fun acc f => (parse_power_report f.2).map (fun d => dictInsert (stem f.1) d acc)) []
  some ⟨ts, timing, utilization, power⟩

/-- `globStarMatch` is exactly the fnmatch decomposition
`name = a ++ kw ++ b ++ ".rpt"`. -/
theorem globStarMatch_iff_decomp (kw name : Str) :
    globStarMatch kw name = true ↔ ∃ a b, name = a ++ kw ++ b ++ rptExt := by
  unfold globStarMatch
  rw [List.any_eq_true]
  constructor
  · rintro ⟨s, hs, hcond⟩
    rw [List.mem_tails] at hs
    obtain ⟨a, ha⟩ := hs
    rw [Bool.and_eq_true, List.isPrefixOf_iff_prefix, List.isSuffixOf_iff_suffix] at hcond
    obtain ⟨⟨u, hu⟩, ⟨b, hb⟩⟩ := hcond
    subst hu
    rw [List.drop_left] at hb
    refine ⟨a, b, ?_⟩
    rw [← ha, ← hb]
    simp [List.append_assoc]
  · rintro ⟨a, b, rfl⟩
    refine ⟨kw ++ (b ++ rptExt), ?_, ?_⟩
    · rw [List.mem_tails]
      exact ⟨a, by simp [List.append_assoc]⟩
    · rw [Bool.and_eq_true, List.isPrefixOf_iff_prefix, List.isSuffixOf_iff_suffix]
      refine ⟨⟨b ++ rptExt, rfl⟩, ?_⟩
      rw [List.drop_left]
      exact ⟨b, rfl⟩

theorem suffix_of_suffix_length_le {l₁ l₂ l₃ : Str}
    (h1 : l₁ <:+ l₃) (h2 : l₂ <:+ l₃) (hl : l₁.length ≤ l₂.length) : l₁ <:+ l₂ := by
  rw [← List.reverse_prefix] at h1 h2 ⊢
  exact List.prefix_of_prefix_length_le h1 h2 (by simpa using hl)

/-- For a keyword that is at least as long as `".rpt"` and whose tail never
coincides with a prefix of `".rpt"`, the fnmatch pattern `*kw*.rpt` accepts a
name exactly when the name contains `kw` and ends in `".rpt"`. -/
theorem globStarMatch_iff_contains_ends (kw : Str) (hkw : 4 ≤ kw.length)
    (hno : ∀ j, 1 ≤ j → j ≤ 4 → rptExt.take j ≠ kw.drop (kw.length - j)) (name : Str) :
    globStarMatch kw name = true ↔ (kw <:+: name ∧ rptExt <:+ name) := by
  rw [globStarMatch_iff_decomp]
  constructor
  · rintro ⟨a, b, rfl⟩
    constructor
    · exact ⟨a, b ++ rptExt, by simp [List.append_assoc]⟩
    · exact ⟨a ++ kw ++ b, by simp [List.append_assoc]⟩
  · rintro ⟨⟨a, c, hac⟩, hsuf⟩
    have hkwc : rptExt <:+ kw ++ c := by
      refine suffix_of_suffix_length_le hsuf ⟨a, by rw [← hac]; simp [List.append_assoc]⟩ ?_
      simp only [List.length_append]
      have : rptExt.length = 4 := by decide
      omega
    obtain ⟨t, ht⟩ := hkwc
    -- t ++ rptExt = kw ++ c
    rcases List.append_eq_append_iff.mp ht.symm with ⟨u, hu1, hu2⟩ | ⟨u, hu1, hu2⟩
    · -- t = kw ++ u, c = u ++ rptExt
      exact ⟨a, u, by rw [← hac, hu2]; simp [List.append_assoc]⟩
    · -- kw = t ++ u, rptExt = u ++ c
      cases u with
      | nil =>
        simp only [List.nil_append] at hu2
        exact ⟨a, [], by rw [← hac, ← hu2]; simp [List.append_assoc]⟩
      | cons x xs =>
        exfalso
        have hulen : (x :: xs).length ≤ 4 := by
          have : rptExt.length = 4 := by decide
          have h4 := congrArg List.length hu2
          simp only [List.length_append] at h4
          omega
        refine hno (x :: xs).length (by simp) hulen ?_
        have h1 : rptExt.take (x :: xs).length = x :: xs := by
          rw [hu2, List.take_left]
        have h2 : kw.drop (kw.length - (x :: xs).length) = x :: xs := by
          rw [hu1]
          have : (t ++ (x :: xs)).length - (x :: xs).length = t.length := by
            simp [List.length_append]
          rw [this, List.drop_left]
        rw [h1, h2]

theorem dictInsert_mem_self {α : Type} (k : Str) (v : α) (l : List (Str × α)) :
    (k, v) ∈ dictInsert k v l := by
  induction l with
  | nil => simp [dictInsert]
  | cons kv rest ih =>
    obtain ⟨k', v'⟩ := kv
    by_cases h : k' = k
    · simp [dictInsert, h]
    · simp only [dictInsert, if_neg h]
      exact List.mem_cons_of_mem _ ih

theorem dictInsert_mem_of_ne {α : Type} {k k' : Str} {v v' : α} {l : List (Str × α)}
    (hmem : (k, v) ∈ l) (hne : k ≠ k') : (k, v) ∈ dictInsert k' v' l := by
  induction l with
  | nil => cases hmem
  | cons kv rest ih =>
    obtain ⟨k'', v''⟩ := kv
    rcases List.mem_cons.mp hmem with heq | hrest
    · by_cases h : k'' = k'
      · cases heq
        exact absurd h hne
      · rw [dictInsert, if_neg h]
        exact List.mem_cons.mpr (Or.inl heq)
    · by_cases h : k'' = k'
      · rw [dictInsert, if_pos h]
        exact List.mem_cons_of_mem _ hrest
      · rw [dictInsert, if_neg h]
        exact List.mem_cons_of_mem _ (ih hrest)

theorem dictInsert_mem_cases {α : Type} {k k' : Str} {v v' : α} {l : List (Str × α)}
    (hmem : (k, v) ∈ dictInsert k' v' l) : (k, v) ∈ l ∨ (k = k' ∧ v = v') := by
  induction l with
  | nil =>
    simp only [dictInsert, List.mem_singleton, Prod.mk.injEq] at hmem
    exact Or.inr hmem
  | cons kv rest ih =>
    obtain ⟨k'', v''⟩ := kv
    by_cases h : k'' = k'
    · rw [dictInsert, if_pos h] at hmem
      rcases List.mem_cons.mp hmem with heq | hrest
      · cases heq
        exact Or.inr ⟨rfl, rfl⟩
      · exact Or.inl (List.mem_cons_of_mem _ hrest)
    · rw [dictInsert, if_neg h] at hmem
      rcases List.mem_cons.mp hmem with heq | hrest
      · exact Or.inl (List.mem_cons.mpr (Or.inl heq))
      · rcases ih hrest with hl | hr
        · exact Or.inl (List.mem_cons_of_mem _ hl)
        · exact Or.inr hr

theorem fold_preserves {α : Type} {parse : Str → Option α} :
    ∀ {files : List (Str × Str)} {acc res : List (Str × α)},
    files.foldlM (fun acc f => (parse f.2).map (fun d => dictInsert (stem f.1) d acc)) acc =
      some res →
    ∀ {k : Str} {v : α}, (k, v) ∈ acc → k ∉ files.map (fun f => stem f.1) → (k, v) ∈ res := by
  intro files
  induction files with
  | nil =>
    intro acc res hfold k v hmem _
    simp only [List.foldlM_nil] at hfold
    cases hfold
    exact hmem
  | cons f fs ih =>
    intro acc res hfold k v hmem hnot
    rw [List.foldlM_cons] at hfold
    cases hp : parse f.2 with
    | none => rw [hp] at hfold; cases hfold
    | some d =>
      rw [hp] at hfold
      simp only [Option.map_some', Option.bind_eq_bind, Option.some_bind] at hfold
      simp only [List.map_cons, List.mem_cons, not_or] at hnot
      exact ih hfold (dictInsert_mem_of_ne hmem hnot.1) hnot.2

theorem fold_mem {α : Type} {parse : Str → Option α} :
    ∀ {files : List (Str × Str)} {acc res : List (Str × α)},
    files.foldlM (fun acc f => (parse f.2).map (fun d => dictInsert (stem f.1) d acc)) acc =
      some res →
    (files.map (fun f => stem f.1)).Nodup →
    ∀ {name content : Str}, (name, content) ∈ files →
    ∃ d, parse content = some d ∧ (stem name, d) ∈ res := by
  intro files
  induction files with
  | nil =>
    intro acc res _ _ name content hmem
    cases hmem
  | cons f fs ih =>
    intro acc res hfold hnd name content hmem
    rw [List.foldlM_cons] at hfold
    cases hp : parse f.2 with
    | none => rw [hp] at hfold; cases hfold
    | some d =>
      rw [hp] at hfold
      simp only [Option.map_some', Option.bind_eq_bind, Option.some_bind] at hfold
      simp only [List.map_cons, List.nodup_cons] at hnd
      rcases List.mem_cons.mp hmem with heq | hrest
      · cases heq
        exact ⟨d, hp, fold_preserves hfold (dictInsert_mem_self _ _ _) hnd.1⟩
      · exact ih hfold hnd.2 hrest

theorem fold_mem_rev {α : Type} {parse : Str → Option α} :
    ∀ {files : List (Str × Str)} {acc res : List (Str × α)},
    files.foldlM (fun acc f => (parse f.2).map (fun d => dictInsert (stem f.1) d acc)) acc =
      some res →
    ∀ {k : Str} {d : α}, (k, d) ∈ res →
    (k, d) ∈ acc ∨
      ∃ name content, (name, content) ∈ files ∧ stem name = k ∧ parse content = some d := by
  intro files
  induction files with
  | nil =>
    intro acc res hfold k d hmem
    simp only [List.foldlM_nil] at hfold
    cases hfold
    exact Or.inl hmem
  | cons f fs ih =>
    intro acc res hfold k d hmem
    rw [List.foldlM_cons] at hfold
    cases hp : parse f.2 with
    | none => rw [hp] at hfold; cases hfold
    | some d0 =>
      rw [hp] at hfold
      simp only [Option.map_some', Option.bind_eq_bind, Option.some_bind] at hfold
      rcases ih hfold hmem with hacc | ⟨name, content, hmemf, hstem, hpc⟩
      · rcases dictInsert_mem_cases hacc with hl | ⟨hk, hv⟩
        · exact Or.inl hl
        · subst hk; subst hv
          exact Or.inr ⟨f.1, f.2, List.mem_cons_self _ _, rfl, hp⟩
      · exact Or.inr ⟨name, content, List.mem_cons_of_mem _ hmemf, hstem, hpc⟩

/-- The three category mappings of a successful scan are the folds over the
matching files. -/
theorem analyze_proj {ts : Str} {dir : List (Str × Str)} {r : AggregatedResult}
    (h : analyze_all_reports ts dir = some r) :
    (dir.filter (fun f => globStarMatch "timing".toList f.1)).foldlM
      (fun acc f => (parse_timing_report f.2).map (fun d => dictInsert (stem f.1) d acc))
      [] = some r.timing ∧
    (dir.filter (fun f => globStarMatch "utilization".toList f.1)).foldlM
      (fun acc f => (parse_utilization_report f.2).map (fun d => dictInsert (stem f.1) d acc))
      [] = some r.utilization ∧
    (dir.filter (fun f => globStarMatch "power".toList f.1)).foldlM
      (fun acc f => (parse_power_report f.2).map (fun d => dictInsert (stem f.1) d acc))
      [] = some r.power ∧
    r.timestamp = ts := by
  unfold analyze_all_reports at h
  cases h1 : (dir.filter (fun f => globStarMatch "timing".toList f.1)).foldlM
      (fun acc f => (parse_timing_report f.2).map (fun d => dictInsert (stem f.1) d acc))
      [] with
  | none => rw [h1] at h; simp at h
  | some a =>
    rw [h1] at h
    simp only [Option.bind_eq_bind, Option.some_bind] at h
    cases h2 : (dir.filter (fun f => globStarMatch "utilization".toList f.1)).foldlM
        (fun acc f => (parse_utilization_report f.2).map (fun d => dictInsert (stem f.1) d acc))
        [] with
    | none => rw [h2] at h; simp at h
    | some b =>
      rw [h2] at h
      simp only [Option.some_bind] at h
      cases h3 : (dir.filter (fun f => globStarMatch "power".toList f.1)).foldlM
          (fun acc f => (parse_power_report f.2).map (fun d => dictInsert (stem f.1) d acc))
          [] with
      | none => rw [h3] at h; simp at h
      | some c =>
        rw [h3] at h
        simp only [Option.some_bind, Option.some.injEq] at h
        subst h
        exact ⟨rfl, rfl, rfl, rfl⟩

/-- C6: a file is assigned to a category exactly when its name contains that
category's keyword (case-sensitive) and ends in `.rpt`; each such file is
parsed with that category's parser and the result is keyed by the file's
stem.  (The forward membership statements assume the matched files have
distinct stems, the non-degenerate case of a real directory; the converse
holds unconditionally.) -/
theorem C6_directory_scan :
    (∀ name : Str, globStarMatch "timing".toList name = true ↔
      ("timing".toList <:+: name ∧ rptExt <:+ name)) ∧
    (∀ name : Str, globStarMatch "utilization".toList name = true ↔
      ("utilization".toList <:+: name ∧ rptExt <:+ name)) ∧
    (∀ name : Str, globStarMatch "power".toList name = true ↔
      ("power".toList <:+: name ∧ rptExt <:+ name)) ∧
    (∀ (ts : Str) (dir : List (Str × Str)) (r : AggregatedResult),
      analyze_all_reports ts dir = some r →
      ((dir.filter (fun f => globStarMatch "timing".toList f.1)).map
        (fun f => stem f.1)).Nodup →
      ∀ name content : Str, (name, content) ∈ dir →
        globStarMatch "timing".toList name = true →
        ∃ d, parse_timing_report content = some d ∧ (stem name, d) ∈ r.timing) ∧
    (∀ (ts : Str) (dir : List (Str × Str)) (r : AggregatedResult),
      analyze_all_reports ts dir = some r →
      ((dir.filter (fun f => globStarMatch "utilization".toList f.1)).map
        (fun f => stem f.1)).Nodup →
      ∀ name content : Str, (name, content) ∈ dir →
        globStarMatch "utilization".toList name = true →
        ∃ d, parse_utilization_report content = some d ∧ (stem name, d) ∈ r.utilization) ∧
    (∀ (ts : Str) (dir : List (Str × Str)) (r : AggregatedResult),
      analyze_all_reports ts dir = some r →
      ((dir.filter (fun f => globStarMatch "power".toList f.1)).map
        (fun f => stem f.1)).Nodup →
      ∀ name content : Str, (name, content) ∈ dir →
        globStarMatch "power".toList name = true →
        ∃ d, parse_power_report content = some d ∧ (stem name, d) ∈ r.power) ∧
    (∀ (ts : Str) (dir : List (Str × Str)) (r : AggregatedResult),
      analyze_all_reports ts dir = some r →
      ∀ (k : Str) (d : TimingData), (k, d) ∈ r.timing →
        ∃ name content, (name, content) ∈ dir ∧
          globStarMatch "timing".toList name = true ∧ stem name = k ∧
          parse_timing_report content = some d) ∧
    (∀ (ts : Str) (dir : List (Str × Str)) (r : AggregatedResult),
      analyze_all_reports ts dir = some r →
      ∀ (k : Str) (d : UtilizationData), (k, d) ∈ r.utilization →
        ∃ name content, (name, content) ∈ dir ∧
          globStarMatch "utilization".toList name = true ∧ stem name = k ∧
          parse_utilization_report content = some d) ∧
    (∀ (ts : Str) (dir : List (Str × Str)) (r : AggregatedResult),
      analyze_all_reports ts dir = some r →
      ∀ (k : Str) (d : PowerData), (k, d) ∈ r.power →
        ∃ name content, (name, content) ∈ dir ∧
          globStarMatch "power".toList name = true ∧ stem name = k ∧
          parse_power_report content = some d) := by
  refine ⟨?_, ?_, ?_, ?_, ?_, ?_, ?_, ?_, ?_⟩
  · exact globStarMatch_iff_contains_ends "timing".toList (by decide) (by decide)
  · exact globStarMatch_iff_contains_ends "utilization".toList (by decide) (by decide)
  · exact globStarMatch_iff_contains_ends "power".toList (by decide) (by decide)
  · intro ts dir r h hnd name content hmem hmatch
    have hfold := (analyze_proj h).1
    exact fold_mem hfold hnd (List.mem_filter.mpr ⟨hmem, hmatch⟩)
  · intro ts dir r h hnd name content hmem hmatch
    have hfold := (analyze_proj h).2.1
    exact fold_mem hfold hnd (List.mem_filter.mpr ⟨hmem, hmatch⟩)
  · intro ts dir r h hnd name content hmem hmatch
    have hfold := (analyze_proj h).2.2.1
    exact fold_mem hfold hnd (List.mem_filter.mpr ⟨hmem, hmatch⟩)
  · intro ts dir r h k d hmem
    have hfold := (analyze_proj h).1
    rcases fold_mem_rev hfold hmem with hacc | ⟨name, content, hmemf, hstem, hpc⟩
    · cases hacc
    · have := List.mem_filter.mp hmemf
      exact ⟨name, content, this.1, this.2, hstem, hpc⟩
  · intro ts dir r h k d hmem
    have hfold := (analyze_proj h).2.1
    rcases fold_mem_rev hfold hmem with hacc | ⟨name, content, hmemf, hstem, hpc⟩
    · cases hacc
    · have := List.mem_filter.mp hmemf
      exact ⟨name, content, this.1, this.2, hstem, hpc⟩
  · intro ts dir r h k d hmem
    have hfold := (analyze_proj h).2.2.1
    rcases fold_mem_rev hfold hmem with hacc | ⟨name, content, hmemf, hstem, hpc⟩
    · cases hacc
    · have := List.mem_filter.mp hmemf
      exact ⟨name, content, this.1, this.2, hstem, hpc⟩

def c6Dir : List (Str × Str) :=
  [("a_timing.rpt".toList, []), ("b_utilization.rpt".toList, []),
   ("c_power.rpt".toList, [])]

def c6Result : AggregatedResult :=
  ⟨[], [("a_timing".toList, defaultTiming)],
    [("b_utilization".toList, defaultUtilization)],
    [("c_power".toList, defaultPower)]⟩

/-- Witness for C6 on a three-file directory. -/
theorem C6_directory_scan_witness :
    (("timing".toList <:+: "a_timing.rpt".toList) ∧ rptExt <:+ "a_timing.rpt".toList) ∧
    (∃ d, parse_timing_report [] = some d ∧ ("a_timing".toList, d) ∈ c6Result.timing) ∧
    (∃ d, parse_utilization_report [] = some d ∧
      ("b_utilization".toList, d) ∈ c6Result.utilization) ∧
    (∃ name content, (name, content) ∈ c6Dir ∧
      globStarMatch "power".toList name = true ∧ stem name = "c_power".toList ∧
      parse_power_report content = some defaultPower) := by
  have hA : analyze_all_reports [] c6Dir = some c6Result := by decide
  refine ⟨(C6_directory_scan.1 "a_timing.rpt".toList).mp (by decide), ?_, ?_, ?_⟩
  · exact C6_directory_scan.2.2.2.1 [] c6Dir c6Result hA (by decide)
      "a_timing.rpt".toList [] (by decide) (by decide)
  · exact C6_directory_scan.2.2.2.2.1 [] c6Dir c6Result hA (by decide)
      "b_utilization.rpt".toList [] (by decide) (by decide)
  · exact C6_directory_scan.2.2.2.2.2.2.2.2 [] c6Dir c6Result hA
      "c_power".toList defaultPower (by decide)
def htmlChunkA : Str := "\n<!DOCTYPE html>\n<html>\n<head>\n    <title>Xilinx Design Performance Dashboard</title>\n    <style>\n        body \x7b font-family: Arial, sans-serif; margin: 20px; \x7d\n        .header \x7b background-color: #f0f0f0; padding: 20px; border-radius: 5px; \x7d\n        .section \x7b margin: 20px 0; padding: 15px; border: 1px solid #ddd; border-radius: 5px; \x7d\n        .metrics \x7b display: flex; justify-content: space-around; flex-wrap: wrap; \x7d\n        .metric \x7b text-align: center; margin: 10px; padding: 15px; background-color: #f9f9f9; border-radius: 5px; \x7d\n        .metric-value \x7b font-size: 24px; font-weight: bold; \x7d\n        .metric-label \x7b font-size: 14px; color: #666; \x7d\n        .pass \x7b color: green; \x7d\n        .fail \x7b color: red; \x7d\n        .warning \x7b color: orange; \x7d\n        img \x7b max-width: 100%; height: auto; margin: 10px 0; \x7d\n    </style>\n</head>\n<body>\n    <div class=\"header\">\n        <h1>Xilinx Design Performance Dashboard</h1>\n        <p>Generated on: ".toList

def htmlChunkB : Str := "</p>\n    </div>\n    \n    <div class=\"section\">\n        <h2>Timing Summary</h2>\n        <div class=\"metrics\">\n".toList

def timingTileT0 : Str := "\n            <div class=\"metric\">\n                <div class=\"metric-value ".toList

-- interpolation: wns_class

def timingTileT1 : Str := "\">".toList

-- interpolation: wns:.3f

def timingTileT2 : Str := " ns</div>\n                <div class=\"metric-label\">Worst Negative Slack</div>\n            </div>\n            <div class=\"metric\">\n                <div class=\"metric-value ".toList

-- interpolation: tns_class

def timingTileT3 : Str := "\">".toList

-- interpolation: tns:.3f

def timingTileT4 : Str := " ns</div>\n                <div class=\"metric-label\">Total Negative Slack</div>\n            </div>\n            <div class=\"metric\">\n                <div class=\"metric-value ".toList

-- interpolation: eps_class

def timingTileT5 : Str := "\">".toList

-- interpolation: failing_eps

def timingTileT6 : Str := "</div>\n                <div class=\"metric-label\">Failing Endpoints</div>\n            </div>\n".toList

def htmlChunkC : Str := "\n        </div>\n        <img src=\"timing_analysis.png\" alt=\"Timing Analysis\">\n    </div>\n    \n    <div class=\"section\">\n        <h2>Resource Utilization</h2>\n        <div class=\"metrics\">\n".toList

def utilTileT0 : Str := "\n            <div class=\"metric\">\n                <div class=\"metric-value ".toList

-- interpolation: util_class

def utilTileT1 : Str := "\">".toList

-- interpolation: util_pct:.1f

def utilTileT2 : Str := "%</div>\n                <div class=\"metric-label\">".toList

-- interpolation: resource.upper()

def utilTileT3 : Str := " Utilization</div>\n            </div>\n".toList

def htmlChunkD : Str := "\n        </div>\n        <img src=\"utilization.png\" alt=\"Resource Utilization\">\n    </div>\n    \n    <div class=\"section\">\n        <h2>Power Analysis</h2>\n        <div class=\"metrics\">\n".toList

def powerTileT0 : Str := "\n            <div class=\"metric\">\n                <div class=\"metric-value\">".toList

-- interpolation: total_power:.2f

def powerTileT1 : Str := " W</div>\n                <div class=\"metric-label\">Total Power</div>\n            </div>\n            <div class=\"metric\">\n                <div class=\"metric-value\">".toList

-- interpolation: dynamic_power:.2f

def powerTileT2 : Str := " W</div>\n                <div class=\"metric-label\">Dynamic Power</div>\n            </div>\n            <div class=\"metric\">\n                <div class=\"metric-value\">".toList

-- interpolation: static_power:.2f

def powerTileT3 : Str := " W</div>\n                <div class=\"metric-label\">Static Power</div>\n            </div>\n".toList

def htmlChunkE : Str := "\n        </div>\n        <img src=\"power_analysis.png\" alt=\"Power Analysis\">\n    </div>\n    \n</body>\n</html>\n".toList

/-- Python `x >= 0` on a nullable float: `None >= 0` raises `TypeError`. -/
def pyGeZero : Option ℚ → Option Bool
  | none => none
  | some q => some (decide (q ≥ 0))

/-- Python `x < 0` on a nullable float: `None < 0` raises `TypeError`. -/
def pyLtZero : Option ℚ → Option Bool
  | none => none
  | some q => some (decide (q < 0))

def natStr (n : Nat) : Str := Nat.toDigits 10 n

/-- Round to the nearest integer, ties to even (Python float formatting). -/
def roundHalfEven (x : ℚ) : ℤ :=
  let f := ⌊x⌋
  let r := x - f
  if r < 1/2 then f
  else if r > 1/2 then f + 1
  else if f % 2 = 0 then f else f + 1

def intStr (m : ℤ) : Str :=
  (if m < 0 then ['-'] else []) ++ natStr m.natAbs

/-- Python `format(q, '.pf')` on the exact rational model of the float. -/
def fmtFixed (p : Nat) (q : ℚ) : Str :=
  let m := roundHalfEven (q * 10 ^ p)
  let a := m.natAbs
  let ip := a / 10 ^ p
  let fp := a % 10 ^ p
  let fpds := natStr fp
  (if q < 0 then ['-'] else []) ++ natStr ip ++
    (if p = 0 then [] else '.' :: (List.replicate (p - fpds.length) '0' ++ fpds))

/-- Formatting a nullable float raises on `None`. -/
def fmtOptFloat (p : Nat) : Option ℚ → Option Str
  | none => none
  | some q => some (fmtFixed p q)

/-- The classification expression of the dashboard:
`'pass' if util_pct < 80 else 'warning' if util_pct < 95 else 'fail'`. -/
def utilClass (p : ℚ) : Str :=
  if p < 80 then "pass".toList else if p < 95 then "warning".toList else "fail".toList

def boolClass (b : Bool) : Str := if b then "pass".toList else "fail".toList

/-- The timing metric tiles of the dashboard (f-string of lines 346-359). -/
def timingTiles (wnsClass wnsS tnsClass tnsS epsClass epsS : Str) : Str :=
  timingTileT0 ++ wnsClass ++ timingTileT1 ++ wnsS ++ timingTileT2 ++ tnsClass ++
    timingTileT3 ++ tnsS ++ timingTileT4 ++ epsClass ++ timingTileT5 ++ epsS ++ timingTileT6

/-- One utilization metric tile (f-string of lines 380-385). -/
def utilTile (cls pctS upperName : Str) : Str :=
  utilTileT0 ++ cls ++ utilTileT1 ++ pctS ++ utilTileT2 ++ upperName ++ utilTileT3

/-- The power metric tiles (f-string of lines 404-417). -/
def powerTiles (totS dynS statS : Str) : Str :=
  powerTileT0 ++ totS ++ powerTileT1 ++ dynS ++ powerTileT2 ++ statS ++ powerTileT3

/-- The timing metrics block: skipped when the timing mapping is falsy;
otherwise classifies and formats the last-enumerated record (`None` slack
values raise a `TypeError` in the `>= 0` comparisons). -/
def timingMetricsBlock (timing : List (Str × TimingData)) : Option Str :=
  match timing with
  | [] => some []
  | t :: ts => do
    let latest := ((t :: ts).map Prod.snd).getLast (by simp)
    let wnsOk ← pyGeZero latest.wns
    let tnsOk ← pyGeZero latest.tns
    let epsClass := if latest.failing_endpoints = 0 then "pass".toList else "fail".toList
    let wnsS ← fmtOptFloat 3 latest.wns
    let tnsS ← fmtOptFloat 3 latest.tns
    some (timingTiles (boolClass wnsOk) wnsS (boolClass tnsOk) tnsS epsClass
      (natStr latest.failing_endpoints))

/-- The utilization metrics block: one tile per resource of the
last-enumerated record (all fields are total, no failure path). -/
def utilMetricsBlock (util : List (Str × UtilizationData)) : Str :=
  match util with
  | [] => []
  | u :: us =>
    let latest := ((u :: us).map Prod.snd).getLast (by simp)
    utilTile (utilClass latest.lut.utilization) (fmtFixed 1 latest.lut.utilization)
      "LUT".toList ++
    utilTile (utilClass latest.ff.utilization) (fmtFixed 1 latest.ff.utilization)
      "FF".toList ++
    utilTile (utilClass latest.bram.utilization) (fmtFixed 1 latest.bram.utilization)
      "BRAM".toList ++
    utilTile (utilClass latest.dsp.utilization) (fmtFixed 1 latest.dsp.utilization)
      "DSP".toList

/-- The power metrics block for the last-enumerated record. -/
def powerMetricsBlock (power : List (Str × PowerData)) : Str :=
  match power with
  | [] => []
  | p :: ps =>
    let latest := ((p :: ps).map Prod.snd).getLast (by simp)
    powerTiles (fmtFixed 2 latest.total_power) (fmtFixed 2 latest.dynamic_power)
      (fmtFixed 2 latest.static_power)

/-- `_generate_html_dashboard`: assembles the page; `none` models an
exception escaping (only the timing block can raise). -/
def generate_html_dashboard (r : AggregatedResult) : Option Str := do
  let timingBlock ← timingMetricsBlock r.timing
  some (htmlChunkA ++ r.timestamp ++ htmlChunkB ++ timingBlock ++ htmlChunkC ++
    utilMetricsBlock r.utilization ++ htmlChunkD ++ powerMetricsBlock r.power ++
    htmlChunkE)

/-- `_plot_timing_analysis`: returns early (no chart) on an empty mapping;
otherwise the bar-color comprehensions compare every slack with 0 (`None`
raises) and the chart file is written. -/
def plot_timing_analysis (timing : List (Str × TimingData)) : Option (Option Str) :=
  match timing with
  | [] => some none
  | _ => do
    let _ ← timing.mapM (fun kv => pyLtZero kv.2.wns)
    let _ ← timing.mapM (fun kv => pyLtZero kv.2.tns)
    let _ ← timing.mapM (fun kv => pyLtZero kv.2.whs)
    some (some "timing_analysis.png".toList)

/-- `_plot_utilization`: returns early (no chart) on an empty mapping. -/
def plot_utilization (util : List (Str × UtilizationData)) : Option (Option Str) :=
  match util with
  | [] => some none
  | _ => some (some "utilization.png".toList)

/-- `_plot_power_analysis`: returns early (no chart) on an empty mapping. -/
def plot_power_analysis (power : List (Str × PowerData)) : Option (Option Str) :=
  match power with
  | [] => some none
  | _ => some (some "power_analysis.png".toList)

/-- `generate_performance_dashboard`: the three charts (when data exists),
then the HTML page; result is the list of chart files written and the HTML
text (`dashboard.html` is always written on success). -/
def generate_performance_dashboard (r : AggregatedResult) : Option (List Str × Str) := do
  let f1 ← plot_timing_analysis r.timing
  let f2 ← plot_utilization r.utilization
  let f3 ← plot_power_analysis r.power
  let html ← generate_html_dashboard r
  some (f1.toList ++ f2.toList ++ f3.toList, html)

/-- C4: the dashboard classifies a utilization percentage as "pass" exactly
when it is below 80, "warning" exactly on [80, 95), and "fail" exactly at or
above 95. -/
theorem C4_util_classification (p : ℚ) :
    (utilClass p = "pass".toList ↔ p < 80) ∧
    (utilClass p = "warning".toList ↔ 80 ≤ p ∧ p < 95) ∧
    (utilClass p = "fail".toList ↔ 95 ≤ p) := by
  unfold utilClass
  by_cases h1 : p < 80
  · rw [if_pos h1]
    exact ⟨⟨fun _ => h1, fun _ => rfl⟩,
      ⟨fun h => absurd h (by decide), fun h => absurd h1 (not_lt.mpr h.1)⟩,
      ⟨fun h => absurd h (by decide), fun h => absurd h1 (not_lt.mpr (by linarith))⟩⟩
  · rw [if_neg h1]
    by_cases h2 : p < 95
    · rw [if_pos h2]
      exact ⟨⟨fun h => absurd h (by decide), fun h => absurd h h1⟩,
        ⟨fun _ => ⟨not_lt.mp h1, h2⟩, fun _ => rfl⟩,
        ⟨fun h => absurd h (by decide), fun h => absurd h2 (not_lt.mpr h)⟩⟩
    · rw [if_neg h2]
      exact ⟨⟨fun h => absurd h (by decide), fun h => absurd h h1⟩,
        ⟨fun h => absurd h (by decide), fun h => absurd h.2 h2⟩,
        ⟨fun _ => not_lt.mp h2, fun _ => rfl⟩⟩

/-- Witness for C4 at the three regions. -/
theorem C4_util_classification_witness :
    utilClass 50 = "pass".toList ∧ utilClass 80 = "warning".toList ∧
    utilClass 95 = "fail".toList :=
  ⟨(C4_util_classification 50).1.mpr (by norm_num),
   (C4_util_classification 80).2.1.mpr (by norm_num),
   (C4_util_classification 95).2.2.mpr (by norm_num)⟩

/-- C10: if the timing mapping is non-empty and the last-enumerated record's
wns (or tns) is null — the documented default when the label is absent — the
HTML dashboard generation raises (`None >= 0` is a `TypeError`) instead of
producing the page. -/
theorem C10_null_slack_aborts_dashboard (r : AggregatedResult) (hne : r.timing ≠ [])
    (hnull : ((r.timing.map Prod.snd).getLastD defaultTiming).wns = none ∨
      ((r.timing.map Prod.snd).getLastD defaultTiming).tns = none) :
    generate_html_dashboard r = none := by
  obtain ⟨t, ts, ht⟩ : ∃ t ts, r.timing = t :: ts := by
    cases h : r.timing with
    | nil => exact absurd h hne
    | cons t ts => exact ⟨t, ts, rfl⟩
  have hlast : ((t :: ts).map Prod.snd).getLast (by simp) =
      (r.timing.map Prod.snd).getLastD defaultTiming := by
    rw [ht]
    rw [List.getLastD_eq_getLast?, List.getLast?_eq_getLast _ (by simp)]
    rfl
  have hblock : timingMetricsBlock r.timing = none := by
    rw [ht]
    simp only [timingMetricsBlock]
    rw [hlast]
    rcases hnull with h | h
    · rw [h]
      rfl
    · rw [h]
      cases hw : ((r.timing.map Prod.snd).getLastD defaultTiming).wns <;>
        simp [pyGeZero, Option.bind_eq_bind]
  unfold generate_html_dashboard
  rw [hblock]
  rfl

def c10Result : AggregatedResult := ⟨[], [("x".toList, defaultTiming)], [], []⟩

/-- Witness for C10: a single timing record with default (null) slacks. -/
theorem C10_null_slack_aborts_dashboard_witness :
    generate_html_dashboard c10Result = none :=
  C10_null_slack_aborts_dashboard c10Result (by decide) (Or.inl (by decide))

def tileMarker : Str := "\"metric\">".toList

/-- Substring occurrence test: some suffix of the haystack starts with the
needle. -/
def containsSub (needle : Str) : Str → Bool
  | [] => needle.isPrefixOf []
  | c :: cs => needle.isPrefixOf (c :: cs) || containsSub needle cs

theorem containsSub_iff (needle : Str) : ∀ hay : Str,
    containsSub needle hay = true ↔ needle <:+: hay := by
  intro hay
  induction hay with
  | nil => simp [containsSub, List.isPrefixOf_iff_prefix, List.prefix_nil, List.infix_nil]
  | cons c cs ih =>
    simp only [containsSub, Bool.or_eq_true, List.isPrefixOf_iff_prefix, ih]
    exact (List.infix_cons_iff).symm

def sampleTimestamp : Str := "2025-01-01T00:00:00".toList

/-- The dashboard HTML for an all-empty aggregated result: the static
skeleton with no metric tiles. -/
def emptyDashboardHtml (ts : Str) : Str :=
  htmlChunkA ++ ts ++ htmlChunkB ++ htmlChunkC ++ htmlChunkD ++ htmlChunkE

set_option maxRecDepth 8000 in
set_option maxHeartbeats 2000000 in
/-- C8: scanning an empty directory yields an AggregatedResult whose three
category mappings are empty; dashboard generation on it writes no chart
file yet still produces the HTML page, whose metric sections contain no
metric tile: by `containsSub_iff`, `containsSub tileMarker h = false` states
that no `"metric">` substring (the tile marker) occurs in the page, checked
on a sample timestamp. -/
theorem C8_empty_directory :
    (∀ ts : Str, analyze_all_reports ts [] = some ⟨ts, [], [], []⟩) ∧
    (∀ ts : Str, generate_performance_dashboard ⟨ts, [], [], []⟩ =
      some ([], emptyDashboardHtml ts)) ∧
    containsSub tileMarker (emptyDashboardHtml sampleTimestamp) = false := by
  refine ⟨?_, ?_, ?_⟩
  · intro ts
    simp only [analyze_all_reports, List.filter_nil, List.foldlM_nil, Option.bind_eq_bind,
      Option.some_bind, Option.pure_def]
  · intro ts
    simp only [generate_performance_dashboard, plot_timing_analysis, plot_utilization,
      plot_power_analysis, Option.bind_eq_bind, Option.some_bind]
    simp only [generate_html_dashboard, timingMetricsBlock, Option.bind_eq_bind,
      Option.some_bind]
    simp only [utilMetricsBlock, powerMetricsBlock, emptyDashboardHtml, Option.toList,
      List.append_nil, List.nil_append, List.append_assoc]
  · decide
